import Mathlib

/-!
Shallow embedding of the GameBot-Beano session engine (src/Main.py).

Conventions of the embedding:
* Python dicts persisted to JSON files become explicit state values threaded
  through the functions; each handler is a pure function from the loaded
  state (plus the triggering event data) to the saved state plus the list of
  outbound side effects (messages, mutes, media sends).
* Telegram user ids and group ids are `Int`; timestamps are `Int` seconds
  (`time.time()` deltas only ever get compared against window constants).
* A Python `dict` keyed by game id is an association list `List (Nat × Game)`
  keeping insertion order (Python dicts iterate in insertion order); uuid
  string keys are abstracted to `Nat` keys.
* Collaborator calls (`bot.send_message`, `restrict_chat_member`, ...) are
  recorded as `Event`s; the happy path is modelled (the source logs and
  swallows collaborator exceptions).
-/

abbrev UserId := Int
abbrev GroupId := Int

/-- A stake is the untyped `{'type': ..., 'value': ...}` dict of the source:
`points` carries an integer amount, the media variants carry a file id. -/
inductive Stake
  | points (value : Int)
  | photo (fileId : String)
  | video (fileId : String)
  | voice (fileId : String)
deriving DecidableEq, Repr

/-- The `status` strings of two-player game records in `games.json`. -/
inductive GameStatus
  | pending_game_selection
  | pending_opponent_acceptance
  | pending_opponent_stake
  | active
  | complete
deriving DecidableEq, Repr

/-- The `game_type` strings. -/
inductive GameType
  | dice
  | connect_four
  | tictactoe
  | battleship
deriving DecidableEq, Repr

/-- One record of `games.json`.  Fields that only some game types use carry
defaults, mirroring keys that are absent from the Python dict until set.
(`messages_to_delete` is bookkeeping for chat cleanup and is not modelled:
no claim concerns it.) -/
structure Game where
  group_id : GroupId
  challenger_id : UserId
  opponent_id : UserId
  status : GameStatus
  game_type : Option GameType := none
  challenger_stake : Option Stake := none
  opponent_stake : Option Stake := none
  board : List (List Nat) := []
  turn : Option UserId := none
  last_activity : Int := 0
  warning_sent : Bool := false
  current_round : Nat := 1
  challenger_score : Nat := 0
  opponent_score : Nat := 0
  rounds_to_play : Nat := 3
  last_roll : Option (UserId × Nat) := none
  is_revenge : Bool := false
  old_game_id : Option Nat := none
  winner_id : Option UserId := none
  loser_id : Option UserId := none
deriving DecidableEq, Repr

/-- The two-player game store (`games.json`), insertion ordered. -/
abbrev Games := List (Nat × Game)

/-- `games_data.get(game_id)`. -/
def findGame : Games → Nat → Option Game
  | [], _ => none
  | (k, g) :: rest, gid => if k = gid then some g else findGame rest gid

/-- `games_data[game_id] = game` (dict update keeps the key's position;
a fresh key is appended). -/
def setGame : Games → Nat → Game → Games
  | [], gid, g => [(gid, g)]
  | (k, g') :: rest, gid, g =>
    if k = gid then (gid, g) :: rest else (k, g') :: setGame rest gid g

/-- `del games_data[game_id]`. -/
def delGame : Games → Nat → Games
  | [], _ => []
  | (k, g') :: rest, gid => if k = gid then rest else (k, g') :: delGame rest gid

/-- The sessions of a group that are outside the terminal `complete` state
(the "at most one session per group" invariant counts these). -/
def activeSessions (gs : Games) (grp : GroupId) : Games :=
  gs.filter fun p => p.2.group_id == grp && p.2.status != GameStatus.complete

/-- `board[r][c]` on the list-of-lists board (indices are in range at every
source call site; out-of-range reads default to 0). -/
def getCell (board : List (List Nat)) (r c : Nat) : Nat :=
  (board.getD r []).getD c 0

/-- `board[r][c] = v`. -/
def setCell (board : List (List Nat)) (r c : Nat) (v : Nat) : List (List Nat) :=
  board.set r ((board.getD r []).set c v)

/-- `check_connect_four_win` (src/Main.py:817): scans horizontals, verticals
and both diagonal directions of the 6x7 board for four cells of
`player_num`. -/
def check_connect_four_win (board : List (List Nat)) (player_num : Nat) : Bool :=
  ((List.range 6).any fun r => (List.range 4).any fun c =>
    (List.range 4).all fun i => getCell board r (c + i) == player_num) ||
  ((List.range 3).any fun r => (List.range 7).any fun c =>
    (List.range 4).all fun i => getCell board (r + i) c == player_num) ||
  ((List.range 3).any fun r => (List.range 4).any fun c =>
    (List.range 4).all fun i => getCell board (r + i) (c + i) == player_num) ||
  ((List.range' 3 3).any fun r => (List.range 4).any fun c =>
    (List.range 4).all fun i => getCell board (r - i) (c + i) == player_num)

/-- `check_connect_four_draw` (src/Main.py:842): top row fully occupied. -/
def check_connect_four_draw (board : List (List Nat)) : Bool :=
  (board.getD 0 []).all fun cell => cell != 0

/-- `check_tictactoe_win` (src/Main.py:1121). -/
def check_tictactoe_win (board : List (List Nat)) (player_num : Nat) : Bool :=
  ((List.range 3).any fun i => (List.range 3).all fun j => getCell board i j == player_num) ||
  ((List.range 3).any fun i => (List.range 3).all fun j => getCell board j i == player_num) ||
  ((List.range 3).all fun i => getCell board i i == player_num) ||
  ((List.range 3).all fun i => getCell board i (2 - i) == player_num)

/-- `check_tictactoe_draw` (src/Main.py:1131): all nine cells occupied. -/
def check_tictactoe_draw (board : List (List Nat)) : Bool :=
  board.all fun row => row.all fun cell => cell != 0

/-- Spec-side enumeration of the connect-four winning lines: every run of
four contiguous cells, horizontal (`(r, c+i)`), vertical (`(r+i, c)`),
down-right diagonal (`(r+i, c+i)`) and up-right diagonal (`(r-i, c+i)`),
inside the 6x7 board. -/
def connectFourLines : List (List (Nat × Nat)) :=
  (((List.range 6).product (List.range 4)).map fun rc =>
    (List.range 4).map fun i => (rc.1, rc.2 + i)) ++
  (((List.range 3).product (List.range 7)).map fun rc =>
    (List.range 4).map fun i => (rc.1 + i, rc.2)) ++
  (((List.range 3).product (List.range 4)).map fun rc =>
    (List.range 4).map fun i => (rc.1 + i, rc.2 + i)) ++
  (((List.range' 3 3).product (List.range 4)).map fun rc =>
    (List.range 4).map fun i => (rc.1 - i, rc.2 + i))

/-- Spec-side enumeration of the eight tic-tac-toe lines: the three rows,
three columns and two diagonals of the 3x3 board. -/
def ticTacToeLines : List (List (Nat × Nat)) :=
  ((List.range 3).map fun i => (List.range 3).map fun j => (i, j)) ++
  ((List.range 3).map fun i => (List.range 3).map fun j => (j, i)) ++
  [(List.range 3).map fun i => (i, i)] ++
  [(List.range 3).map fun i => (i, 2 - i)]

/-- A parametric view of one family of connect-four scan loops: outer index
from `R`, inner from `C`, and `f` placing the four-cell run. -/
def familyCheck (R C : List Nat) (f : Nat × Nat → Nat → Nat × Nat)
    (board : List (List Nat)) (p : Nat) : Bool :=
  R.any fun r => C.any fun c =>
    (List.range 4).all fun i => getCell board (f (r, c) i).1 (f (r, c) i).2 == p

/-- The lines scanned by one `familyCheck` family. -/
def familyLines (R C : List Nat) (f : Nat × Nat → Nat → Nat × Nat) :
    List (List (Nat × Nat)) :=
  (R.product C).map fun rc => (List.range 4).map (f rc)

/-- A parametric view of the tic-tac-toe row/column scan loops. -/
def tttFamilyCheck (f : Nat → Nat → Nat × Nat) (board : List (List Nat)) (p : Nat) : Bool :=
  (List.range 3).any fun i =>
    (List.range 3).all fun j => getCell board (f i j).1 (f i j).2 == p

/-- The lines scanned by one `tttFamilyCheck` family. -/
def tttFamilyLines (f : Nat → Nat → Nat × Nat) : List (List (Nat × Nat)) :=
  (List.range 3).map fun i => (List.range 3).map (f i)

/-- A parametric view of a single three-cell line check (a diagonal). -/
def lineAllCheck (d : Nat → Nat × Nat) (board : List (List Nat)) (p : Nat) : Bool :=
  (List.range 3).all fun i => getCell board (d i).1 (d i).2 == p

/-- The `'truth'` / `'dare'` prompt kind. -/
inductive TodType
  | truth
  | dare
deriving DecidableEq, Repr

/-- The proof kind named by the rejection hint of
`tod_handle_proof_submission`. -/
inductive ProofKind
  | photoOrVideo
  | textOrVoice
deriving DecidableEq, Repr

/-- The distinct outbound message texts the modelled handlers produce
(identified structurally; the literal wording is irrelevant to the claims). -/
inductive Msg
  | punishmentIssued (threshold : Int) (message : String)
  | punishmentAdminNotice (user : UserId) (threshold : Int) (message : String)
  | strikeMuted (user : UserId) (strike : Nat)
  | thirdStrike (user : UserId)
  | thirdStrikeAdminNotice (user : UserId)
  | gameWonPoints (winner loser : UserId) (amount : Int)
  | privateWin
  | privateLoss
  | drawAnnounced (challenger opponent : UserId)
  | drawPointsLost (user : UserId) (amount : Int)
  | challengeExpired
  | cancelledForInactivity
  | inactivityWarning
  | challengeRefusedPrivate (refuser : UserId)
  | refusalForfeitPoints (challenger : UserId) (amount : Int)
  | revengeRefusalForfeit (refuser challenger : UserId) (amount : Int)
  | revengeRefusedNoOldGame (refuser : UserId)
  | revengeRefusedNoStake (refuser : UserId)
  | challengeNotForYou
  | challengeNoLongerValid
  | challengeRefusedEdit
  | revengeRefusedEdit
  | challengeAcceptedNotice
  | opponentStakePrompt
  | notYourTurn
  | noLongerActive
  | columnFull
  | spotTaken
  | connectFourDraw
  | connectFourWin (winner : UserId)
  | ticTacToeWin (winner : UserId)
  | ticTacToeDraw
  | boardTurn (player : UserId)
  | diceWaitingFor (other : UserId) (value : Nat)
  | diceNotYourTurn
  | diceTie (value : Nat)
  | diceRoundWin (winner : UserId) (round : Nat)
  | diceNextRound (round : Nat)
  | todCompleted (user : UserId)
  | todCompletedEdit
  | todProofHint (required : ProofKind)
  | theGameIsOn
deriving DecidableEq, Repr

/-- Outbound side effects of a handler, in emission order.  `alert` is a
callback-query answer shown only to the acting user; `editShared` edits the
shared inline-keyboard message everyone sees; `exposeX` posts a staked media
artifact to the group; `restrictMember` is the Telegram mute call. -/
inductive Event
  | sendGroup (group : GroupId) (m : Msg)
  | sendUser (user : UserId) (m : Msg)
  | alert (user : UserId) (m : Msg)
  | editShared (m : Msg)
  | editMessage (chat msgId : Int) (m : Msg)
  | reply (user : UserId) (m : Msg)
  | restrictMember (group : GroupId) (user : UserId) (seconds : Nat)
  | exposePhoto (group : GroupId) (fileId : String)
  | exposeVideo (group : GroupId) (fileId : String)
  | exposeVoice (group : GroupId) (fileId : String)
deriving DecidableEq, Repr

/-- One entry of a group's punishment list (`punishments.json`); malformed
entries may miss either key, which `check_for_punishment` skips. -/
structure Rule where
  threshold : Option Int
  message : Option String
deriving DecidableEq, Repr

/-- Read-only configuration consumed by the economy layer: each group's
punishment rules (`punishments.json`) and its chat administrators
(`get_chat_administrators`). -/
structure Config where
  rules : GroupId → List Rule
  admins : GroupId → List UserId

/-- The persistent economy state: `points.json` balances,
`negative_points_tracker.json` strikes, and `punishment_status.json`
armed ("triggered") punishment messages, all keyed by (group, user). -/
structure Econ where
  points : GroupId → UserId → Int
  strikes : GroupId → UserId → Nat
  armed : GroupId → UserId → List String

/-- `set_user_points`. -/
def setPoints (e : Econ) (g : GroupId) (u : UserId) (v : Int) : Econ :=
  { e with points := fun g' u' => if g' = g ∧ u' = u then v else e.points g' u' }

/-- Writing the negative-strike tracker for one (group, user). -/
def setStrikes (e : Econ) (g : GroupId) (u : UserId) (v : Nat) : Econ :=
  { e with strikes := fun g' u' => if g' = g ∧ u' = u then v else e.strikes g' u' }

/-- `add_triggered_punishment_for_user`: appends the message unless already
recorded. -/
def addTriggered (e : Econ) (g : GroupId) (u : UserId) (m : String) : Econ :=
  { e with armed := fun g' u' =>
      if g' = g ∧ u' = u then
        (if m ∈ e.armed g u then e.armed g u else e.armed g u ++ [m])
      else e.armed g' u' }

/-- `remove_triggered_punishment_for_user`: removes one occurrence. -/
def removeTriggered (e : Econ) (g : GroupId) (u : UserId) (m : String) : Econ :=
  { e with armed := fun g' u' =>
      if g' = g ∧ u' = u then (e.armed g u).erase m else e.armed g' u' }

/-- The `for punishment in group_punishments` loop body of
`check_for_punishment` (src/Main.py:564-601).  `armed0` is the snapshot
`triggered_punishments` read once before the loop; additions and removals
go to the store `e`. -/
def punishmentLoop (cfg : Config) (g : GroupId) (u : UserId)
    (old_points new_points : Int) (armed0 : List String) :
    List Rule → Econ → Econ × List Event
  | [], e => (e, [])
  | rule :: rest, e =>
    match rule.threshold, rule.message with
    | some threshold, some message =>
      if old_points ≥ threshold ∧ new_points < threshold then
        if message ∉ armed0 then
          let evs := Event.sendGroup g (.punishmentIssued threshold message) ::
            (cfg.admins g).map
              (fun a => Event.sendUser a (.punishmentAdminNotice u threshold message))
          let e' := addTriggered e g u message
          let res := punishmentLoop cfg g u old_points new_points armed0 rest e'
          (res.1, evs ++ res.2)
        else punishmentLoop cfg g u old_points new_points armed0 rest e
      else if new_points ≥ threshold then
        if message ∈ armed0 then
          punishmentLoop cfg g u old_points new_points armed0 rest
            (removeTriggered e g u message)
        else punishmentLoop cfg g u old_points new_points armed0 rest e
      else punishmentLoop cfg g u old_points new_points armed0 rest e
    | _, _ => punishmentLoop cfg g u old_points new_points armed0 rest e

/-- `check_for_punishment` (src/Main.py:554). -/
def check_for_punishment (cfg : Config) (g : GroupId) (u : UserId)
    (old_points new_points : Int) (e : Econ) : Econ × List Event :=
  punishmentLoop cfg g u old_points new_points (e.armed g u) (cfg.rules g) e

/-- `check_for_negative_points` (src/Main.py:639): on a negative balance,
advance the strike counter; strikes 1-2 mute for 86400 s and zero the
balance, strike 3 escalates and resets the counter. -/
def check_for_negative_points (cfg : Config) (g : GroupId) (u : UserId)
    (pts : Int) (e : Econ) : Econ × List Event :=
  if pts < 0 then
    let current_strikes := e.strikes g u + 1
    let e1 := setStrikes e g u current_strikes
    if current_strikes < 3 then
      (setPoints e1 g u 0,
        [Event.restrictMember g u 86400,
         Event.sendGroup g (.strikeMuted u current_strikes)])
    else
      (setStrikes e1 g u 0,
        Event.sendGroup g (.thirdStrike u) ::
          (cfg.admins g).map (fun a => Event.sendUser a (.thirdStrikeAdminNotice u)))
  else (e, [])

/-- `add_user_points` (src/Main.py:603), the single apply-delta operation:
write the new balance, reset the strike counter if it is non-negative,
then run the punishment and negative-balance checks in order. -/
def add_user_points (cfg : Config) (g : GroupId) (u : UserId) (delta : Int)
    (e : Econ) : Econ × List Event :=
  let old_points := e.points g u
  let new_points := old_points + delta
  let e1 := setPoints e g u new_points
  let e2 := if new_points ≥ 0 then setStrikes e1 g u 0 else e1
  let r1 := check_for_punishment cfg g u old_points new_points e2
  let r2 := check_for_negative_points cfg g u new_points r1.1
  (r2.1, r1.2 ++ r2.2)

/-- `update_game_activity` (src/Main.py:796): refresh `last_activity` and
drop the `warning_sent` flag; a missing id is a no-op. -/
def update_game_activity (gs : Games) (gid : Nat) (now : Int) : Games :=
  match findGame gs gid with
  | some g => setGame gs gid { g with last_activity := now, warning_sent := false }
  | none => gs

/-- The media branches of the settlement functions: forward a staked
photo/video/voice to the group.  A `points` stake reaches none of the
media-type branches and sends nothing. -/
def exposeStake (group : GroupId) (st : Stake) : List Event :=
  match st with
  | .points _ => []
  | .photo f => [Event.exposePhoto group f]
  | .video f => [Event.exposeVideo group f]
  | .voice f => [Event.exposeVoice group f]

/-- `handle_game_over` (src/Main.py:881): settle a decided game.  The loser's
stake is a point transfer (two parallel ledger deltas) or a media trophy;
winner/loser ids are stored for revenge and the session becomes complete.
A missing game id or missing loser stake leaves the store untouched (the
source logs and returns). -/
def handle_game_over (cfg : Config) (gs : Games) (e : Econ) (gid : Nat)
    (winner_id loser_id : UserId) : Games × Econ × List Event :=
  match findGame gs gid with
  | none => (gs, e, [])
  | some game =>
    let loser_stake :=
      if game.challenger_id = loser_id then game.challenger_stake
      else game.opponent_stake
    match loser_stake with
    | none => (gs, e, [])
    | some stake =>
      let game1 := { game with winner_id := some winner_id, loser_id := some loser_id }
      let res :=
        match stake with
        | .points v =>
          let ra := add_user_points cfg game.group_id winner_id v e
          let rb := add_user_points cfg game.group_id loser_id (-v) ra.1
          (rb.1, ra.2 ++ rb.2 ++
            [Event.sendGroup game.group_id (.gameWonPoints winner_id loser_id v)])
        | _ => (e, exposeStake game.group_id stake)
      let evs2 :=
        if game.game_type = some .battleship then
          [Event.sendUser winner_id .privateWin, Event.sendUser loser_id .privateLoss]
        else []
      (setGame gs gid { game1 with status := .complete }, res.1, res.2 ++ evs2)

/-- `handle_game_draw` (src/Main.py:1135): both players lose their own
stake (points deducted, media exposed); the session becomes complete. -/
def handle_game_draw (cfg : Config) (gs : Games) (e : Econ) (gid : Nat) :
    Games × Econ × List Event :=
  match findGame gs gid with
  | none => (gs, e, [])
  | some game =>
    let announce := Event.sendGroup game.group_id
      (.drawAnnounced game.challenger_id game.opponent_id)
    let r1 :=
      match game.challenger_stake with
      | none => (e, ([] : List Event))
      | some (.points v) =>
        let ra := add_user_points cfg game.group_id game.challenger_id (-v) e
        (ra.1, ra.2 ++ [Event.sendGroup game.group_id (.drawPointsLost game.challenger_id v)])
      | some st => (e, exposeStake game.group_id st)
    let r2 :=
      match game.opponent_stake with
      | none => (r1.1, ([] : List Event))
      | some (.points v) =>
        let ra := add_user_points cfg game.group_id game.opponent_id (-v) r1.1
        (ra.1, ra.2 ++ [Event.sendGroup game.group_id (.drawPointsLost game.opponent_id v)])
      | some st => (r1.1, exposeStake game.group_id st)
    (setGame gs gid { game with status := .complete }, r2.1, announce :: r1.2 ++ r2.2)

/-- The bottom-up scan of `connect_four_move_handler` for the lowest empty
row of `col`: `for r in range(5, -1, -1)`. -/
def dropRow (board : List (List Nat)) (col : Nat) : Option Nat :=
  [5, 4, 3, 2, 1, 0].find? fun r => getCell board r col == 0

/-- `connect_four_move_handler` (src/Main.py:1022).  Activity is refreshed
before any validation.  A non-active session or a foreign turn rejects the
move; otherwise the piece drops, then win / draw / turn-switch.  As in the
source, the board mutation of the win path is not persisted before
`handle_game_over` reloads the store, and the draw path persists the board
and completes the session without any stake settlement. -/
def connect_four_move_handler (cfg : Config) (gs : Games) (e : Econ)
    (gid : Nat) (col : Nat) (user_id : UserId) (now : Int) :
    Games × Econ × List Event :=
  let gs := update_game_activity gs gid now
  match findGame gs gid with
  | none => (gs, e, [Event.editShared .noLongerActive])
  | some game =>
    if game.status ≠ .active then (gs, e, [Event.editShared .noLongerActive])
    else if game.turn ≠ some user_id then (gs, e, [Event.alert user_id .notYourTurn])
    else
      let player_num := if user_id = game.challenger_id then 1 else 2
      match dropRow game.board col with
      | none => (gs, e, [Event.alert user_id .columnFull])
      | some r =>
        let board := setCell game.board r col player_num
        if check_connect_four_win board player_num then
          let loser_id :=
            if user_id = game.challenger_id then game.opponent_id
            else game.challenger_id
          let res := handle_game_over cfg gs e gid user_id loser_id
          (res.1, res.2.1, Event.editShared (.connectFourWin user_id) :: res.2.2)
        else if check_connect_four_draw board then
          (setGame gs gid { game with board := board, status := .complete }, e,
            [Event.editShared .connectFourDraw])
        else
          let turn' :=
            if user_id = game.challenger_id then game.opponent_id
            else game.challenger_id
          (setGame gs gid { game with board := board, turn := some turn' }, e,
            [Event.editShared (.boardTurn turn')])

/-- `tictactoe_move_handler` (src/Main.py:1199).  Same validation order as
connect-four, plus the occupied-cell rejection; a draw routes through
`handle_game_draw` (which reloads the store, so the final board cell is not
persisted, as in the source). -/
def tictactoe_move_handler (cfg : Config) (gs : Games) (e : Econ)
    (gid : Nat) (r c : Nat) (user_id : UserId) (now : Int) :
    Games × Econ × List Event :=
  let gs := update_game_activity gs gid now
  match findGame gs gid with
  | none => (gs, e, [Event.editShared .noLongerActive])
  | some game =>
    if game.status ≠ .active then (gs, e, [Event.editShared .noLongerActive])
    else if game.turn ≠ some user_id then (gs, e, [Event.alert user_id .notYourTurn])
    else if getCell game.board r c ≠ 0 then (gs, e, [Event.alert user_id .spotTaken])
    else
      let player_num := if user_id = game.challenger_id then 1 else 2
      let board := setCell game.board r c player_num
      if check_tictactoe_win board player_num then
        let loser_id :=
          if user_id = game.challenger_id then game.opponent_id
          else game.challenger_id
        let res := handle_game_over cfg gs e gid user_id loser_id
        (res.1, res.2.1, Event.editShared (.ticTacToeWin user_id) :: res.2.2)
      else if check_tictactoe_draw board then
        let res := handle_game_draw cfg gs e gid
        (res.1, res.2.1, Event.editShared .ticTacToeDraw :: res.2.2)
      else
        let turn' :=
          if user_id = game.challenger_id then game.opponent_id
          else game.challenger_id
        (setGame gs gid { game with board := board, turn := some turn' }, e,
          [Event.editShared (.boardTurn turn')])

/-- `handle_challenge_timeout` (src/Main.py:1312): cancel a challenge that
idled at the acceptance stage; no stake is touched.  It re-checks the
status to avoid racing a concurrent transition. -/
def handle_challenge_timeout (gs : Games) (e : Econ) (gid : Nat) :
    Games × Econ × List Event :=
  match findGame gs gid with
  | none => (gs, e, [])
  | some game =>
    if game.status ≠ .pending_opponent_acceptance then (gs, e, [])
    else
      (setGame gs gid { game with status := .complete }, e,
        [Event.sendGroup game.group_id .challengeExpired])

/-- `handle_game_cancellation` (src/Main.py:1343): cancel an idle game;
both staged stakes are forfeited (points deducted, media exposed). -/
def handle_game_cancellation (cfg : Config) (gs : Games) (e : Econ) (gid : Nat) :
    Games × Econ × List Event :=
  match findGame gs gid with
  | none => (gs, e, [])
  | some game =>
    if game.status = .complete then (gs, e, [])
    else
      let announce := Event.sendGroup game.group_id .cancelledForInactivity
      let r1 :=
        match game.challenger_stake with
        | none => (e, ([] : List Event))
        | some (.points v) => add_user_points cfg game.group_id game.challenger_id (-v) e
        | some st => (e, exposeStake game.group_id st)
      let r2 :=
        match game.opponent_stake with
        | none => (r1.1, ([] : List Event))
        | some (.points v) => add_user_points cfg game.group_id game.opponent_id (-v) r1.1
        | some st => (r1.1, exposeStake game.group_id st)
      (setGame gs gid { game with status := .complete }, r2.1, announce :: r1.2 ++ r2.2)

/-- The body of the two-player loop of `check_game_inactivity`
(src/Main.py:1474-1506) for one session: skip completed sessions, apply the
120 s no-penalty expiry at the acceptance stage, the 420 s penalized
cancellation, or the 300 s one-shot warning. -/
def check_inactivity_step (cfg : Config) (now : Int) (gs : Games) (e : Econ)
    (gid : Nat) : Games × Econ × List Event :=
  match findGame gs gid with
  | none => (gs, e, [])
  | some game =>
    if game.status ∉ [GameStatus.pending_opponent_acceptance, .active,
        .pending_game_selection, .pending_opponent_stake] then
      (gs, e, [])
    else if game.status = .pending_opponent_acceptance ∧
        now - game.last_activity > 120 then
      handle_challenge_timeout gs e gid
    else if now - game.last_activity > 420 then
      handle_game_cancellation cfg gs e gid
    else if now - game.last_activity > 300 ∧ game.warning_sent = false then
      (setGame gs gid { game with warning_sent := true }, e,
        [Event.sendGroup game.group_id .inactivityWarning])
    else (gs, e, [])

/-- `challenge_response_handler` (src/Main.py:4057): the opponent accepts or
refuses a pending challenge.  Acceptance moves to `pending_opponent_stake`.
Refusal of a plain challenge forfeits the challenger's stake and deletes the
session; refusal of a revenge challenge looks up the original game and
forfeits the original winner's (the refuser's) old stake, transferring
points to the challenger, then deletes the session.  Records the source
would crash on (a refusal with no staged challenger stake, a revenge record
whose original game lacks winner/loser ids) are left unchanged. -/
def challenge_response_handler (cfg : Config) (gs : Games) (e : Econ)
    (gid : Nat) (user_id : UserId) (accept : Bool) (now : Int) :
    Games × Econ × List Event :=
  let gs := update_game_activity gs gid now
  match findGame gs gid with
  | none => (gs, e, [Event.editShared .challengeNoLongerValid])
  | some game =>
    if user_id ≠ game.opponent_id then
      (gs, e, [Event.alert user_id .challengeNotForYou])
    else if accept then
      (setGame gs gid { game with status := .pending_opponent_stake }, e,
        [Event.editShared .challengeAcceptedNotice,
         Event.sendUser user_id .opponentStakePrompt])
    else if game.is_revenge then
      match game.old_game_id.bind (findGame gs) with
      | none =>
        (delGame gs gid, e,
          [Event.sendGroup game.group_id (.revengeRefusedNoOldGame game.opponent_id),
           Event.editShared .revengeRefusedEdit])
      | some old_game =>
        match old_game.winner_id, old_game.loser_id with
        | some refuser_id, some challenger_id =>
          let refuser_stake :=
            if old_game.challenger_id = refuser_id then old_game.challenger_stake
            else old_game.opponent_stake
          let res :=
            match refuser_stake with
            | some (.points v) =>
              let ra := add_user_points cfg game.group_id challenger_id v e
              let rb := add_user_points cfg game.group_id refuser_id (-v) ra.1
              (rb.1, ra.2 ++ rb.2 ++
                [Event.sendGroup game.group_id
                  (.revengeRefusalForfeit refuser_id challenger_id v)])
            | some st => (e, exposeStake game.group_id st)
            | none =>
              (e, [Event.sendGroup game.group_id (.revengeRefusedNoStake refuser_id)])
          (delGame gs gid, res.1, res.2 ++ [Event.editShared .revengeRefusedEdit])
        | _, _ => (gs, e, [])
    else
      match game.challenger_stake with
      | none => (gs, e, [])
      | some stake =>
        let head := Event.sendUser game.challenger_id
          (.challengeRefusedPrivate game.opponent_id)
        let evs :=
          match stake with
          | .points v =>
            [Event.sendGroup game.group_id (.refusalForfeitPoints game.challenger_id v)]
          | st => exposeStake game.group_id st
        let e' :=
          match stake with
          | .points v => (add_user_points cfg game.group_id game.challenger_id (-v) e).1
          | _ => e
        let evsPts :=
          match stake with
          | .points v => (add_user_points cfg game.group_id game.challenger_id (-v) e).2
          | _ => []
        (delGame gs gid, e', head :: evsPts ++ evs ++ [Event.editShared .challengeRefusedEdit])

/-- The session-creating core of `newgame_command` (src/Main.py:2340-2369):
reject self- and bot-challenges, refuse if the group already has a
non-complete two-player session, otherwise insert a fresh
`pending_game_selection` record.  The returned flag is whether a session
was created. -/
def newgame_command (gs : Games) (new_gid : Nat) (group_id : GroupId)
    (challenger_id opponent_id bot_id : UserId) (now : Int) : Games × Bool :=
  if challenger_id = opponent_id then (gs, false)
  else if opponent_id = bot_id then (gs, false)
  else if gs.any fun p => p.2.group_id = group_id ∧ p.2.status ≠ .complete then
    (gs, false)
  else
    (setGame gs new_gid
      { group_id := group_id, challenger_id := challenger_id,
        opponent_id := opponent_id, status := .pending_game_selection,
        last_activity := now }, true)

/-- The session-creating core of `revenge_handler` (src/Main.py:945-995):
requires the finished game with stored winner/loser ids, the actor to be
the loser, and no non-complete session in the group; then inserts a fresh
`pending_game_selection` revenge record with the roles swapped. -/
def revenge_handler (gs : Games) (old_gid : Nat) (from_user : UserId)
    (new_gid : Nat) (now : Int) : Games × Bool :=
  match findGame gs old_gid with
  | none => (gs, false)
  | some old_game =>
    match old_game.loser_id, old_game.winner_id with
    | some loser_id, some winner_id =>
      if from_user ≠ loser_id then (gs, false)
      else if gs.any fun p =>
          p.2.group_id = old_game.group_id ∧ p.2.status ≠ .complete then
        (gs, false)
      else
        (setGame gs new_gid
          { group_id := old_game.group_id, challenger_id := loser_id,
            opponent_id := winner_id, status := .pending_game_selection,
            is_revenge := true, old_game_id := some old_gid,
            last_activity := now }, true)
    | _, _ => (gs, false)

/-- The scan of `dice_roll_handler` for the first active dice game the
roller plays in. -/
def findDiceGame : Games → UserId → Option (Nat × Game)
  | [], _ => none
  | (k, g) :: rest, u =>
    if g.game_type = some .dice ∧ g.status = .active ∧
        (g.challenger_id = u ∨ g.opponent_id = u) then some (k, g)
    else findDiceGame rest u

/-- `dice_roll_handler` (src/Main.py:3951).  `update_game_activity` persists
immediately, but every branch that saves the game record afterwards saves
the copy loaded before that update, overwriting it (the source reloads and
saves whole records); `setGame gsAct gid { game with ... }` reproduces that.
An empty `last_roll` opens the round for whoever rolled; a second roll by
the opener is turned away; a tie clears the stored roll; otherwise the
round winner's counter advances and the match either ends through
`handle_game_over` or moves to the next round. -/
def dice_roll_handler (cfg : Config) (gs : Games) (e : Econ)
    (user_id : UserId) (value : Nat) (now : Int) : Games × Econ × List Event :=
  match findDiceGame gs user_id with
  | none => (gs, e, [])
  | some (gid, game) =>
    let gsAct := update_game_activity gs gid now
    match game.last_roll with
    | none =>
      let other :=
        if game.opponent_id = user_id then game.challenger_id else game.opponent_id
      (setGame gsAct gid { game with last_roll := some (user_id, value) }, e,
        [Event.sendGroup game.group_id (.diceWaitingFor other value)])
    | some (opener, opener_value) =>
      if opener = user_id then
        (gsAct, e, [Event.sendGroup game.group_id .diceNotYourTurn])
      else if opener_value = value then
        (setGame gsAct gid { game with last_roll := none }, e,
          [Event.sendGroup game.group_id (.diceTie value)])
      else
        let round_winner := if opener_value > value then opener else user_id
        let game1 :=
          if round_winner = game.challenger_id then
            { game with challenger_score := game.challenger_score + 1 }
          else
            { game with opponent_score := game.opponent_score + 1 }
        let winEv := Event.sendGroup game.group_id
          (.diceRoundWin round_winner game.current_round)
        let rounds_to_win := game.rounds_to_play / 2 + 1
        if game1.challenger_score ≥ rounds_to_win ∨
            game1.opponent_score ≥ rounds_to_win then
          let match_winner :=
            if game1.challenger_score > game1.opponent_score then game.challenger_id
            else game.opponent_id
          let match_loser :=
            if game1.challenger_score > game1.opponent_score then game.opponent_id
            else game.challenger_id
          let gs1 := setGame gsAct gid game1
          let res := handle_game_over cfg gs1 e gid match_winner match_loser
          (res.1, res.2.1, winEv :: res.2.2)
        else
          let game2 := { game1 with
            current_round := game.current_round + 1, last_roll := none }
          (setGame gsAct gid game2, e,
            [winEv, Event.sendGroup game.group_id (.diceNextRound game2.current_round)])

/-- The `status` strings of truth-or-dare records. -/
inductive TodStatus
  | pending_acceptance
  | awaiting_proof
deriving DecidableEq, Repr

/-- One record of `tod_games.json` (group ids are stored as strings in the
source and compared for equality; the model keeps them as `GroupId`). -/
structure TodGame where
  user_id : UserId
  group_id : GroupId
  tod_type : TodType
  text : String
  status : TodStatus
  timestamp : Int
  chat_id : Int
  message_id : Int
  warning_sent : Bool := false
deriving DecidableEq, Repr

/-- The truth-or-dare store, insertion ordered. -/
abbrev TodGames := List (Nat × TodGame)

/-- The scan of `tod_handle_proof_submission` for the submitter's open
`awaiting_proof` session in this group (first match in store order). -/
def findTodGame : TodGames → UserId → GroupId → Option (Nat × TodGame)
  | [], _, _ => none
  | (k, g) :: rest, u, grp =>
    if g.user_id = u ∧ g.group_id = grp ∧ g.status = .awaiting_proof then some (k, g)
    else findTodGame rest u grp

/-- `del active_games[game_id]`. -/
def delTodGame : TodGames → Nat → TodGames
  | [], _ => []
  | (k, g') :: rest, gid => if k = gid then rest else (k, g') :: delTodGame rest gid

/-- The polymorphic incoming message content consumed by the proof
validator (`message.photo` / `message.video` / `message.text` /
`message.voice`; `other` covers every further kind). -/
inductive Content
  | text (s : String)
  | photo
  | video
  | voice
  | other
deriving DecidableEq, Repr

/-- `is_valid_proof` of `tod_handle_proof_submission` (src/Main.py:3248):
a dare needs a photo or video, a truth needs a text or voice message. -/
def tod_proof_valid (tod_type : TodType) (content : Content) : Bool :=
  match tod_type, content with
  | .dare, .photo => true
  | .dare, .video => true
  | .truth, .text _ => true
  | .truth, .voice => true
  | _, _ => false

/-- The hint of the rejection branch: the proof kind the prompt requires. -/
def expected_proof (tod_type : TodType) : ProofKind :=
  match tod_type with
  | .dare => .photoOrVideo
  | .truth => .textOrVoice

/-- `tod_handle_proof_submission` (src/Main.py:3227): content from the
subject in the group while `awaiting_proof` either completes the session
(15-point bonus, completion announcement, prompt message edited, session
deleted) or is rejected with a hint naming the required proof kind,
leaving the session open. -/
def tod_handle_proof_submission (cfg : Config) (tods : TodGames) (e : Econ)
    (user_id : UserId) (group_id : GroupId) (content : Content) :
    TodGames × Econ × List Event :=
  match findTodGame tods user_id group_id with
  | none => (tods, e, [])
  | some (gid, game) =>
    if tod_proof_valid game.tod_type content then
      let res := add_user_points cfg group_id user_id 15 e
      (delTodGame tods gid, res.1,
        res.2 ++ [Event.sendGroup group_id (.todCompleted user_id),
                Event.editMessage game.chat_id game.message_id .todCompletedEdit])
    else
      (tods, e, [Event.reply user_id (.todProofHint (expected_proof game.tod_type))])

@[simp] theorem points_setPoints (e : Econ) (g : GroupId) (u : UserId) (v : Int)
    (g' : GroupId) (u' : UserId) :
    (setPoints e g u v).points g' u' = if g' = g ∧ u' = u then v else e.points g' u' := rfl

@[simp] theorem strikes_setPoints (e : Econ) (g : GroupId) (u : UserId) (v : Int) :
    (setPoints e g u v).strikes = e.strikes := rfl

@[simp] theorem armed_setPoints (e : Econ) (g : GroupId) (u : UserId) (v : Int) :
    (setPoints e g u v).armed = e.armed := rfl

@[simp] theorem points_setStrikes (e : Econ) (g : GroupId) (u : UserId) (v : Nat) :
    (setStrikes e g u v).points = e.points := rfl

@[simp] theorem strikes_setStrikes (e : Econ) (g : GroupId) (u : UserId) (v : Nat)
    (g' : GroupId) (u' : UserId) :
    (setStrikes e g u v).strikes g' u' = if g' = g ∧ u' = u then v else e.strikes g' u' := rfl

@[simp] theorem armed_setStrikes (e : Econ) (g : GroupId) (u : UserId) (v : Nat) :
    (setStrikes e g u v).armed = e.armed := rfl

@[simp] theorem points_addTriggered (e : Econ) (g : GroupId) (u : UserId) (m : String) :
    (addTriggered e g u m).points = e.points := rfl

@[simp] theorem strikes_addTriggered (e : Econ) (g : GroupId) (u : UserId) (m : String) :
    (addTriggered e g u m).strikes = e.strikes := rfl

@[simp] theorem points_removeTriggered (e : Econ) (g : GroupId) (u : UserId) (m : String) :
    (removeTriggered e g u m).points = e.points := rfl

@[simp] theorem strikes_removeTriggered (e : Econ) (g : GroupId) (u : UserId) (m : String) :
    (removeTriggered e g u m).strikes = e.strikes := rfl

@[simp] theorem armed_addTriggered_self (e : Econ) (g : GroupId) (u : UserId) (m : String) :
    (addTriggered e g u m).armed g u =
      if m ∈ e.armed g u then e.armed g u else e.armed g u ++ [m] := by
  simp [addTriggered]

@[simp] theorem armed_removeTriggered_self (e : Econ) (g : GroupId) (u : UserId) (m : String) :
    (removeTriggered e g u m).armed g u = (e.armed g u).erase m := by
  simp [removeTriggered]

theorem punishmentLoop_points (cfg : Config) (g : GroupId) (u : UserId)
    (o n : Int) (a0 : List String) (rules : List Rule) (e : Econ) :
    (punishmentLoop cfg g u o n a0 rules e).1.points = e.points := by
  induction rules generalizing e with
  | nil => rfl
  | cons rule rest ih =>
    obtain ⟨th, msg⟩ := rule
    cases th with
    | none => cases msg <;> simpa [punishmentLoop] using ih e
    | some t =>
      cases msg with
      | none => simpa [punishmentLoop] using ih e
      | some m =>
        by_cases h1 : o ≥ t ∧ n < t
        · by_cases h2 : m ∈ a0
          · simpa [punishmentLoop, h1, h2] using ih e
          · simpa [punishmentLoop, h1, h2] using ih (addTriggered e g u m)
        · by_cases h3 : n ≥ t
          · by_cases h2 : m ∈ a0
            · simpa [punishmentLoop, h1, h3, h2] using ih (removeTriggered e g u m)
            · simpa [punishmentLoop, h1, h3, h2] using ih e
          · simpa [punishmentLoop, h1, h3] using ih e

theorem punishmentLoop_strikes (cfg : Config) (g : GroupId) (u : UserId)
    (o n : Int) (a0 : List String) (rules : List Rule) (e : Econ) :
    (punishmentLoop cfg g u o n a0 rules e).1.strikes = e.strikes := by
  induction rules generalizing e with
  | nil => rfl
  | cons rule rest ih =>
    obtain ⟨th, msg⟩ := rule
    cases th with
    | none => cases msg <;> simpa [punishmentLoop] using ih e
    | some t =>
      cases msg with
      | none => simpa [punishmentLoop] using ih e
      | some m =>
        by_cases h1 : o ≥ t ∧ n < t
        · by_cases h2 : m ∈ a0
          · simpa [punishmentLoop, h1, h2] using ih e
          · simpa [punishmentLoop, h1, h2] using ih (addTriggered e g u m)
        · by_cases h3 : n ≥ t
          · by_cases h2 : m ∈ a0
            · simpa [punishmentLoop, h1, h3, h2] using ih (removeTriggered e g u m)
            · simpa [punishmentLoop, h1, h3, h2] using ih e
          · simpa [punishmentLoop, h1, h3] using ih e

theorem check_for_punishment_points (cfg : Config) (g : GroupId) (u : UserId)
    (o n : Int) (e : Econ) :
    (check_for_punishment cfg g u o n e).1.points = e.points :=
  punishmentLoop_points cfg g u o n (e.armed g u) (cfg.rules g) e

theorem check_for_punishment_strikes (cfg : Config) (g : GroupId) (u : UserId)
    (o n : Int) (e : Econ) :
    (check_for_punishment cfg g u o n e).1.strikes = e.strikes :=
  punishmentLoop_strikes cfg g u o n (e.armed g u) (cfg.rules g) e

theorem add_user_points_points_self (cfg : Config) (g : GroupId) (u : UserId)
    (delta : Int) (e : Econ) :
    (add_user_points cfg g u delta e).1.points g u =
      if e.points g u + delta < 0 ∧ e.strikes g u + 1 < 3 then 0
      else e.points g u + delta := by
  by_cases hneg : e.points g u + delta < 0
  · by_cases hs : e.strikes g u + 1 < 3 <;>
      simp [add_user_points, check_for_negative_points, check_for_punishment_points,
        check_for_punishment_strikes, hneg, hs, not_le.mpr hneg]
  · simp [add_user_points, check_for_negative_points, check_for_punishment_points,
      hneg, not_lt.mp hneg]

theorem add_user_points_points_other (cfg : Config) (g : GroupId) (u : UserId)
    (delta : Int) (e : Econ) (g' : GroupId) (u' : UserId) (h : ¬(g' = g ∧ u' = u)) :
    (add_user_points cfg g u delta e).1.points g' u' = e.points g' u' := by
  by_cases hneg : e.points g u + delta < 0
  · by_cases hs : e.strikes g u + 1 < 3 <;>
      simp [add_user_points, check_for_negative_points, check_for_punishment_points,
        check_for_punishment_strikes, hneg, hs, not_le.mpr hneg, h]
  · simp [add_user_points, check_for_negative_points, check_for_punishment_points,
      hneg, not_lt.mp hneg, h]

theorem add_user_points_strikes_self (cfg : Config) (g : GroupId) (u : UserId)
    (delta : Int) (e : Econ) :
    (add_user_points cfg g u delta e).1.strikes g u =
      if 0 ≤ e.points g u + delta then 0
      else if e.strikes g u + 1 < 3 then e.strikes g u + 1 else 0 := by
  by_cases hneg : e.points g u + delta < 0
  · by_cases hs : e.strikes g u + 1 < 3 <;>
      simp [add_user_points, check_for_negative_points, check_for_punishment_points,
        check_for_punishment_strikes, hneg, hs, not_le.mpr hneg]
  · simp [add_user_points, check_for_negative_points, check_for_punishment_points,
      check_for_punishment_strikes, hneg, not_lt.mp hneg]

theorem add_user_points_strikes_other (cfg : Config) (g : GroupId) (u : UserId)
    (delta : Int) (e : Econ) (g' : GroupId) (u' : UserId) (h : ¬(g' = g ∧ u' = u)) :
    (add_user_points cfg g u delta e).1.strikes g' u' = e.strikes g' u' := by
  by_cases hneg : e.points g u + delta < 0
  · by_cases hs : e.strikes g u + 1 < 3 <;>
      simp [add_user_points, check_for_negative_points, check_for_punishment_points,
        check_for_punishment_strikes, hneg, hs, not_le.mpr hneg, h]
  · simp [add_user_points, check_for_negative_points, check_for_punishment_points,
      check_for_punishment_strikes, hneg, not_lt.mp hneg, h]

/-- C3: through `add_user_points`, a non-negative post-delta balance resets
the (group, user) strike counter to 0; a negative one increments it, a
resulting count of 1 or 2 mutes the user for 24 hours (86400 s) and resets
the balance to exactly 0, a resulting count of 3 sends the escalated group
notice, notifies every admin, and resets the counter to 0 with no further
balance change; the counter is below 3 after every call. -/
theorem C3_negative_strike_counter (cfg : Config) (g : GroupId) (u : UserId)
    (delta : Int) (e : Econ) :
    (0 ≤ e.points g u + delta →
      (add_user_points cfg g u delta e).1.strikes g u = 0) ∧
    (e.points g u + delta < 0 → e.strikes g u + 1 < 3 →
      (add_user_points cfg g u delta e).1.strikes g u = e.strikes g u + 1 ∧
      (add_user_points cfg g u delta e).1.points g u = 0 ∧
      Event.restrictMember g u 86400 ∈ (add_user_points cfg g u delta e).2 ∧
      Event.sendGroup g (.strikeMuted u (e.strikes g u + 1)) ∈
        (add_user_points cfg g u delta e).2) ∧
    (e.points g u + delta < 0 → ¬e.strikes g u + 1 < 3 →
      (add_user_points cfg g u delta e).1.strikes g u = 0 ∧
      (add_user_points cfg g u delta e).1.points g u = e.points g u + delta ∧
      Event.sendGroup g (.thirdStrike u) ∈ (add_user_points cfg g u delta e).2 ∧
      ∀ a ∈ cfg.admins g, Event.sendUser a (.thirdStrikeAdminNotice u) ∈
        (add_user_points cfg g u delta e).2) ∧
    (add_user_points cfg g u delta e).1.strikes g u < 3 := by
  refine ⟨fun hpos => ?_, fun hneg hs => ?_, fun hneg hs => ?_, ?_⟩
  · rw [add_user_points_strikes_self]
    simp [hpos]
  · refine ⟨?_, ?_, ?_, ?_⟩
    · rw [add_user_points_strikes_self]
      simp [hneg, hs, not_le.mpr hneg]
    · rw [add_user_points_points_self]
      simp [hneg, hs]
    · simp [add_user_points, check_for_negative_points, check_for_punishment_strikes,
        hneg, hs, not_le.mpr hneg]
    · simp [add_user_points, check_for_negative_points, check_for_punishment_strikes,
        hneg, hs, not_le.mpr hneg]
  · refine ⟨?_, ?_, ?_, ?_⟩
    · rw [add_user_points_strikes_self]
      simp [hneg, hs, not_le.mpr hneg]
    · rw [add_user_points_points_self]
      simp [hneg, hs]
    · simp [add_user_points, check_for_negative_points, check_for_punishment_strikes,
        hneg, hs, not_le.mpr hneg]
    · intro a ha
      simp [add_user_points, check_for_negative_points, check_for_punishment_strikes,
        hneg, hs, not_le.mpr hneg]
      exact Or.inr ha
  · rw [add_user_points_strikes_self]
    by_cases hpos : 0 ≤ e.points g u + delta
    · simp [hpos]
    · by_cases hs : e.strikes g u + 1 < 3 <;> simp [hpos, hs]

/-- Witness for C3 at a concrete input: balance 50, strike counter 0, delta
-60; the mutation leaves -10, advances to strike 1, mutes for 24 h and
zeroes the balance. -/
theorem C3_negative_strike_counter_witness :
    (add_user_points ⟨fun _ => [], fun _ => [9]⟩ 1 2 (-60)
        ⟨fun _ _ => 50, fun _ _ => 0, fun _ _ => []⟩).1.strikes 1 2 = 1 ∧
    (add_user_points ⟨fun _ => [], fun _ => [9]⟩ 1 2 (-60)
        ⟨fun _ _ => 50, fun _ _ => 0, fun _ _ => []⟩).1.points 1 2 = 0 ∧
    Event.restrictMember 1 2 86400 ∈
      (add_user_points ⟨fun _ => [], fun _ => [9]⟩ 1 2 (-60)
        ⟨fun _ _ => 50, fun _ _ => 0, fun _ _ => []⟩).2 := by
  have h := (C3_negative_strike_counter ⟨fun _ => [], fun _ => [9]⟩ 1 2 (-60)
    ⟨fun _ _ => 50, fun _ _ => 0, fun _ _ => []⟩).2.1 (by norm_num) (by norm_num)
  exact ⟨h.1, h.2.1, h.2.2.1⟩

theorem punishmentLoop_armed_nodup (cfg : Config) (g : GroupId) (u : UserId)
    (o n : Int) (a0 : List String) (rules : List Rule) (e : Econ)
    (h : (e.armed g u).Nodup) :
    ((punishmentLoop cfg g u o n a0 rules e).1.armed g u).Nodup := by
  induction rules generalizing e with
  | nil => exact h
  | cons rule rest ih =>
    obtain ⟨th, msg⟩ := rule
    cases th with
    | none => cases msg <;> simpa [punishmentLoop] using ih e h
    | some t =>
      cases msg with
      | none => simpa [punishmentLoop] using ih e h
      | some m =>
        by_cases h1 : o ≥ t ∧ n < t
        · by_cases h2 : m ∈ a0
          · simpa [punishmentLoop, h1, h2] using ih e h
          · have hnod : ((addTriggered e g u m).armed g u).Nodup := by
              by_cases hmem : m ∈ e.armed g u
              · simpa [hmem] using h
              · simp [hmem, List.nodup_append, h]
            simpa [punishmentLoop, h1, h2] using ih (addTriggered e g u m) hnod
        · by_cases h3 : n ≥ t
          · by_cases h2 : m ∈ a0
            · have hnod : ((removeTriggered e g u m).armed g u).Nodup := by
                simpa using h.erase m
              simpa [punishmentLoop, h1, h3, h2] using ih (removeTriggered e g u m) hnod
            · simpa [punishmentLoop, h1, h3, h2] using ih e h
          · simpa [punishmentLoop, h1, h3] using ih e h

theorem punishmentLoop_other (cfg : Config) (g : GroupId) (u : UserId)
    (o n : Int) (a0 : List String) (m : String) (rules : List Rule) (e : Econ)
    (hm : m ∉ rules.filterMap Rule.message) :
    (∀ t', Event.sendGroup g (.punishmentIssued t' m) ∉
      (punishmentLoop cfg g u o n a0 rules e).2) ∧
    (∀ t' a, Event.sendUser a (.punishmentAdminNotice u t' m) ∉
      (punishmentLoop cfg g u o n a0 rules e).2) ∧
    (m ∈ (punishmentLoop cfg g u o n a0 rules e).1.armed g u ↔ m ∈ e.armed g u) := by
  induction rules generalizing e with
  | nil => simp [punishmentLoop]
  | cons rule rest ih =>
    obtain ⟨th, msg⟩ := rule
    cases th with
    | none =>
      cases msg with
      | none => simpa [punishmentLoop] using ih e (by simpa [Rule.message] using hm)
      | some m' =>
        have hm' : m ∉ rest.filterMap Rule.message := by
          intro hc
          exact hm (by simp [Rule.message, hc])
        simpa [punishmentLoop] using ih e hm'
    | some t =>
      cases msg with
      | none => simpa [punishmentLoop] using ih e (by simpa [Rule.message] using hm)
      | some m' =>
        have hne : m ≠ m' := by
          intro hc
          exact hm (by simp [Rule.message, hc])
        have hm' : m ∉ rest.filterMap Rule.message := by
          intro hc
          exact hm (by simp [Rule.message, hc])
        by_cases h1 : o ≥ t ∧ n < t
        · by_cases h2 : m' ∈ a0
          · simpa [punishmentLoop, h1, h2] using ih e hm'
          · have hrec := ih (addTriggered e g u m') hm'
            refine ⟨fun t' hc => ?_, fun t' a hc => ?_, ?_⟩
            · rw [show (punishmentLoop cfg g u o n a0 (⟨some t, some m'⟩ :: rest) e) =
                (((punishmentLoop cfg g u o n a0 rest (addTriggered e g u m')).1,
                  (Event.sendGroup g (.punishmentIssued t m') ::
                    (cfg.admins g).map
                      (fun a => Event.sendUser a (.punishmentAdminNotice u t m'))) ++
                  (punishmentLoop cfg g u o n a0 rest (addTriggered e g u m')).2))
                from by simp [punishmentLoop, h1, h2]] at hc
              simp only [List.mem_append, List.mem_cons, List.mem_map] at hc
              rcases hc with (hc | hc) | hc
              · simp at hc
                exact hne hc.2
              · obtain ⟨a, _, hc⟩ := hc
                simp at hc
              · exact hrec.1 t' hc
            · rw [show (punishmentLoop cfg g u o n a0 (⟨some t, some m'⟩ :: rest) e) =
                (((punishmentLoop cfg g u o n a0 rest (addTriggered e g u m')).1,
                  (Event.sendGroup g (.punishmentIssued t m') ::
                    (cfg.admins g).map
                      (fun a => Event.sendUser a (.punishmentAdminNotice u t m'))) ++
                  (punishmentLoop cfg g u o n a0 rest (addTriggered e g u m')).2))
                from by simp [punishmentLoop, h1, h2]] at hc
              simp only [List.mem_append, List.mem_cons, List.mem_map] at hc
              rcases hc with (hc | hc) | hc
              · simp at hc
              · obtain ⟨a', _, hc⟩ := hc
                simp at hc
                exact hne hc.2.2.symm
              · exact hrec.2.1 t' a hc
            · have harm : m ∈ (addTriggered e g u m').armed g u ↔ m ∈ e.armed g u := by
                by_cases hmem : m' ∈ e.armed g u <;> simp [hmem, hne]
              calc m ∈ (punishmentLoop cfg g u o n a0 (⟨some t, some m'⟩ :: rest) e).1.armed g u
                  ↔ m ∈ (addTriggered e g u m').armed g u := by
                    rw [show (punishmentLoop cfg g u o n a0 (⟨some t, some m'⟩ :: rest) e).1 =
                      (punishmentLoop cfg g u o n a0 rest (addTriggered e g u m')).1
                      from by simp [punishmentLoop, h1, h2]]
                    exact hrec.2.2
                _ ↔ m ∈ e.armed g u := harm
        · by_cases h3 : n ≥ t
          · by_cases h2 : m' ∈ a0
            · have hrec := ih (removeTriggered e g u m') hm'
              have harm : m ∈ (removeTriggered e g u m').armed g u ↔ m ∈ e.armed g u := by
                simp [List.mem_erase_of_ne hne]
              refine ⟨fun t' hc => hrec.1 t' (by simpa [punishmentLoop, h1, h3, h2] using hc),
                fun t' a hc => hrec.2.1 t' a (by simpa [punishmentLoop, h1, h3, h2] using hc), ?_⟩
              calc m ∈ (punishmentLoop cfg g u o n a0 (⟨some t, some m'⟩ :: rest) e).1.armed g u
                  ↔ m ∈ (removeTriggered e g u m').armed g u := by
                    rw [show (punishmentLoop cfg g u o n a0 (⟨some t, some m'⟩ :: rest) e).1 =
                      (punishmentLoop cfg g u o n a0 rest (removeTriggered e g u m')).1
                      from by simp [punishmentLoop, h1, h3, h2]]
                    exact hrec.2.2
                _ ↔ m ∈ e.armed g u := harm
            · simpa [punishmentLoop, h1, h3, h2] using ih e hm'
          · simpa [punishmentLoop, h1, h3] using ih e hm'

theorem punishmentLoop_target (cfg : Config) (g : GroupId) (u : UserId)
    (o n : Int) (a0 : List String) (t : Int) (m : String) :
    ∀ (rules : List Rule) (e : Econ),
      (rules.filterMap Rule.message).Nodup →
      (⟨some t, some m⟩ : Rule) ∈ rules →
      (e.armed g u).Nodup →
      (Event.sendGroup g (.punishmentIssued t m) ∈
          (punishmentLoop cfg g u o n a0 rules e).2 ↔ t ≤ o ∧ n < t ∧ m ∉ a0) ∧
      (∀ a, Event.sendUser a (.punishmentAdminNotice u t m) ∈
          (punishmentLoop cfg g u o n a0 rules e).2 ↔
          a ∈ cfg.admins g ∧ t ≤ o ∧ n < t ∧ m ∉ a0) ∧
      (t ≤ o ∧ n < t ∧ m ∉ a0 →
        m ∈ (punishmentLoop cfg g u o n a0 rules e).1.armed g u) ∧
      (t ≤ n ∧ m ∈ a0 →
        m ∉ (punishmentLoop cfg g u o n a0 rules e).1.armed g u) := by
  intro rules
  induction rules with
  | nil =>
    intro e _ hmem _
    simp at hmem
  | cons head rest ih =>
    intro e hnodup hmem hand
    obtain ⟨th, msg⟩ := head
    by_cases hishead : th = some t ∧ msg = some m
    · obtain ⟨rfl, rfl⟩ := hishead
      have hrest : m ∉ rest.filterMap Rule.message := by
        intro hc
        obtain ⟨r, hr, hrm⟩ := List.mem_filterMap.mp hc
        have hx := hnodup
        simp [Rule.message, List.filterMap_cons] at hx
        exact hx.1 r hr hrm
      by_cases h1 : o ≥ t ∧ n < t
      · by_cases h2 : m ∈ a0
        · have hother := punishmentLoop_other cfg g u o n a0 m rest e hrest
          refine ⟨?_, fun a => ?_, ?_, ?_⟩
          · simp only [punishmentLoop, h1, h2, if_true, if_pos]
            exact iff_of_false (hother.1 t) (by simp [h2])
          · simp only [punishmentLoop, h1, h2, if_true, if_pos]
            exact iff_of_false (hother.2.1 t a) (by simp [h2])
          · rintro ⟨-, -, hma0⟩
            exact absurd h2 hma0
          · rintro ⟨hn, -⟩
            exact absurd hn (not_le.mpr h1.2)
        · have hother := punishmentLoop_other cfg g u o n a0 m rest
            (addTriggered e g u m) hrest
          have hL : punishmentLoop cfg g u o n a0 (⟨some t, some m⟩ :: rest) e =
              ((punishmentLoop cfg g u o n a0 rest (addTriggered e g u m)).1,
                (Event.sendGroup g (.punishmentIssued t m) ::
                  (cfg.admins g).map
                    (fun a => Event.sendUser a (.punishmentAdminNotice u t m))) ++
                (punishmentLoop cfg g u o n a0 rest (addTriggered e g u m)).2) := by
            simp [punishmentLoop, h1, h2]
          refine ⟨?_, fun a => ?_, fun _ => ?_, ?_⟩
          · rw [hL]
            refine iff_of_true (by simp) ⟨h1.1, h1.2, h2⟩
          · rw [hL]
            constructor
            · intro hc
              simp only [List.mem_append, List.mem_cons, List.mem_map] at hc
              rcases hc with (hc | hc) | hc
              · simp at hc
              · obtain ⟨a', ha', hc⟩ := hc
                simp only [Event.sendUser.injEq, Msg.punishmentAdminNotice.injEq] at hc
                obtain ⟨rfl, -⟩ := hc
                exact ⟨ha', h1.1, h1.2, h2⟩
              · exact absurd hc (hother.2.1 t a)
            · rintro ⟨ha, -, -, -⟩
              simp only [List.mem_append, List.mem_cons, List.mem_map]
              exact Or.inl (Or.inr ⟨a, ha, rfl⟩)
          · rw [hL]
            refine (hother.2.2).mpr ?_
            by_cases hmem2 : m ∈ e.armed g u <;> simp [hmem2]
          · rintro ⟨hn, -⟩
            exact absurd hn (not_le.mpr h1.2)
      · have hn' : ¬n < t ∨ ¬t ≤ o := by
          rcases not_and_or.mp h1 with h | h
          · exact Or.inr h
          · exact Or.inl h
        by_cases h3 : n ≥ t
        · by_cases h2 : m ∈ a0
          · have hother := punishmentLoop_other cfg g u o n a0 m rest
              (removeTriggered e g u m) hrest
            have hL : punishmentLoop cfg g u o n a0 (⟨some t, some m⟩ :: rest) e =
                punishmentLoop cfg g u o n a0 rest (removeTriggered e g u m) := by
              simp [punishmentLoop, h1, h3, h2]
            refine ⟨?_, fun a => ?_, ?_, fun _ => ?_⟩
            · rw [hL]
              exact iff_of_false (hother.1 t) (by simp [not_lt.mpr h3])
            · rw [hL]
              exact iff_of_false (hother.2.1 t a) (by simp [not_lt.mpr h3])
            · rintro ⟨-, hn, -⟩
              exact absurd hn (not_lt.mpr h3)
            · rw [hL]
              intro hc
              have := (hother.2.2).mp hc
              simp only [armed_removeTriggered_self] at this
              exact hand.not_mem_erase this
          · have hother := punishmentLoop_other cfg g u o n a0 m rest e hrest
            have hL : punishmentLoop cfg g u o n a0 (⟨some t, some m⟩ :: rest) e =
                punishmentLoop cfg g u o n a0 rest e := by
              simp [punishmentLoop, h1, h3, h2]
            refine ⟨?_, fun a => ?_, ?_, ?_⟩
            · rw [hL]
              exact iff_of_false (hother.1 t) (by simp [not_lt.mpr h3])
            · rw [hL]
              exact iff_of_false (hother.2.1 t a) (by simp [not_lt.mpr h3])
            · rintro ⟨-, hn, -⟩
              exact absurd hn (not_lt.mpr h3)
            · rintro ⟨-, hma0⟩
              exact absurd hma0 h2
        · have hother := punishmentLoop_other cfg g u o n a0 m rest e hrest
          have hL : punishmentLoop cfg g u o n a0 (⟨some t, some m⟩ :: rest) e =
              punishmentLoop cfg g u o n a0 rest e := by
            simp [punishmentLoop, h1, h3]
          have hrhs : ¬(t ≤ o ∧ n < t ∧ m ∉ a0) := by
            rintro ⟨ho, hn, -⟩
            exact h1 ⟨ho, hn⟩
          refine ⟨?_, fun a => ?_, fun hc => absurd ⟨hc.1, hc.2.1⟩ h1, fun hc => ?_⟩
          · rw [hL]
            exact iff_of_false (hother.1 t) hrhs
          · rw [hL]
            exact iff_of_false (hother.2.1 t a) fun hc => hrhs hc.2
          · exact absurd hc.1 h3
    · have hmem' : (⟨some t, some m⟩ : Rule) ∈ rest := by
        rcases List.mem_cons.mp hmem with heq | h
        · exact absurd ⟨(congrArg Rule.threshold heq).symm,
            (congrArg Rule.message heq).symm⟩ hishead
        · exact h
      have hmmsg : m ∈ rest.filterMap Rule.message := by
        refine List.mem_filterMap.mpr ⟨⟨some t, some m⟩, hmem', rfl⟩
      cases th with
      | none =>
        cases msg with
        | none =>
          have hnodup' : (rest.filterMap Rule.message).Nodup := by
            simpa [Rule.message, List.filterMap_cons] using hnodup
          simpa [punishmentLoop] using ih e hnodup' hmem' hand
        | some m' =>
          have hpairs : (∀ x ∈ rest, ¬x.message = some m') ∧
              (rest.filterMap Rule.message).Nodup := by
            simpa [Rule.message, List.filterMap_cons] using hnodup
          simpa [punishmentLoop] using ih e hpairs.2 hmem' hand
      | some t' =>
        cases msg with
        | none =>
          have hnodup' : (rest.filterMap Rule.message).Nodup := by
            simpa [Rule.message, List.filterMap_cons] using hnodup
          simpa [punishmentLoop] using ih e hnodup' hmem' hand
        | some m' =>
          have hpairs : (∀ x ∈ rest, ¬x.message = some m') ∧
              (rest.filterMap Rule.message).Nodup := by
            simpa [Rule.message, List.filterMap_cons] using hnodup
          have hne : m' ≠ m := by
            intro hc
            exact hpairs.1 ⟨some t, some m⟩ hmem' (by simp [Rule.message, hc])
          have hnodup' : (rest.filterMap Rule.message).Nodup := hpairs.2
          by_cases h1 : o ≥ t' ∧ n < t'
          · by_cases h2 : m' ∈ a0
            · simpa [punishmentLoop, h1, h2] using ih e hnodup' hmem' hand
            · have hand' : ((addTriggered e g u m').armed g u).Nodup := by
                by_cases hmem2 : m' ∈ e.armed g u
                · simpa [hmem2] using hand
                · simp [hmem2, List.nodup_append, hand]
              have hrec := ih (addTriggered e g u m') hnodup' hmem' hand'
              have hL : punishmentLoop cfg g u o n a0 (⟨some t', some m'⟩ :: rest) e =
                  ((punishmentLoop cfg g u o n a0 rest (addTriggered e g u m')).1,
                    (Event.sendGroup g (.punishmentIssued t' m') ::
                      (cfg.admins g).map
                        (fun a => Event.sendUser a (.punishmentAdminNotice u t' m'))) ++
                    (punishmentLoop cfg g u o n a0 rest (addTriggered e g u m')).2) := by
                simp [punishmentLoop, h1, h2]
              refine ⟨?_, fun a => ?_, fun hc => by rw [hL]; exact hrec.2.2.1 hc,
                fun hc => by rw [hL]; exact hrec.2.2.2 hc⟩
              · rw [hL]
                rw [show (Event.sendGroup g (.punishmentIssued t m) ∈
                    (Event.sendGroup g (.punishmentIssued t' m') ::
                      (cfg.admins g).map
                        (fun a => Event.sendUser a (.punishmentAdminNotice u t' m'))) ++
                    (punishmentLoop cfg g u o n a0 rest (addTriggered e g u m')).2) =
                    (Event.sendGroup g (.punishmentIssued t m) ∈
                      (punishmentLoop cfg g u o n a0 rest (addTriggered e g u m')).2)
                  from by
                    simp only [List.mem_append, List.mem_cons, List.mem_map, eq_iff_iff]
                    constructor
                    · rintro ((hc | hc) | hc)
                      · simp at hc
                        exact absurd hc.2.symm hne
                      · obtain ⟨a', -, hc⟩ := hc
                        simp at hc
                      · exact hc
                    · exact fun hc => Or.inr hc]
                exact hrec.1
              · rw [hL]
                rw [show (Event.sendUser a (.punishmentAdminNotice u t m) ∈
                    (Event.sendGroup g (.punishmentIssued t' m') ::
                      (cfg.admins g).map
                        (fun a => Event.sendUser a (.punishmentAdminNotice u t' m'))) ++
                    (punishmentLoop cfg g u o n a0 rest (addTriggered e g u m')).2) =
                    (Event.sendUser a (.punishmentAdminNotice u t m) ∈
                      (punishmentLoop cfg g u o n a0 rest (addTriggered e g u m')).2)
                  from by
                    simp only [List.mem_append, List.mem_cons, List.mem_map, eq_iff_iff]
                    constructor
                    · rintro ((hc | hc) | hc)
                      · simp at hc
                      · obtain ⟨a', -, hc⟩ := hc
                        simp at hc
                        exact absurd hc.2.2 hne
                      · exact hc
                    · exact fun hc => Or.inr hc]
                exact hrec.2.1 a
          · by_cases h3 : n ≥ t'
            · by_cases h2 : m' ∈ a0
              · have hand' : ((removeTriggered e g u m').armed g u).Nodup := by
                  simpa using hand.erase m'
                simpa [punishmentLoop, h1, h3, h2] using
                  ih (removeTriggered e g u m') hnodup' hmem' hand'
              · simpa [punishmentLoop, h1, h3, h2] using ih e hnodup' hmem' hand
            · simpa [punishmentLoop, h1, h3] using ih e hnodup' hmem' hand

/-- C2: for a balance mutation from `old_points` to `new_points` and a
punishment rule (threshold `t`, message `m`) of the group, the punishment
fires (group notification plus a private notification to every admin) iff
`old_points ≥ t`, `new_points < t` and the rule is not armed, in which case
the rule becomes armed; and whenever `new_points ≥ t` and the rule is
armed, it is disarmed - with no notification, since firing requires
`new_points < t` - so a later downward crossing fires again.  The
hypotheses are the data-model invariants: the rule is configured for the
group, messages are unique within the group, and the armed set holds no
duplicates. -/
theorem C2_punishment_arming (cfg : Config) (g : GroupId) (u : UserId)
    (old_points new_points : Int) (e : Econ) (t : Int) (m : String)
    (hrule : (⟨some t, some m⟩ : Rule) ∈ cfg.rules g)
    (hmsgs : ((cfg.rules g).filterMap Rule.message).Nodup)
    (harmed : (e.armed g u).Nodup) :
    (Event.sendGroup g (.punishmentIssued t m) ∈
        (check_for_punishment cfg g u old_points new_points e).2 ↔
      t ≤ old_points ∧ new_points < t ∧ m ∉ e.armed g u) ∧
    (∀ a, Event.sendUser a (.punishmentAdminNotice u t m) ∈
        (check_for_punishment cfg g u old_points new_points e).2 ↔
      a ∈ cfg.admins g ∧ t ≤ old_points ∧ new_points < t ∧ m ∉ e.armed g u) ∧
    (t ≤ old_points ∧ new_points < t ∧ m ∉ e.armed g u →
      m ∈ (check_for_punishment cfg g u old_points new_points e).1.armed g u) ∧
    (t ≤ new_points ∧ m ∈ e.armed g u →
      m ∉ (check_for_punishment cfg g u old_points new_points e).1.armed g u) :=
  punishmentLoop_target cfg g u old_points new_points (e.armed g u) t m
    (cfg.rules g) e hmsgs hrule harmed

/-- Witness for C2 at the spec scenario (threshold 0, balance 50 → -10):
the downward crossing fires the group notification, notifies admin 9, and
arms the rule. -/
theorem C2_punishment_arming_witness :
    Event.sendGroup 1 (Msg.punishmentIssued 0 "p") ∈
      (check_for_punishment ⟨fun _ => [⟨some 0, some "p"⟩], fun _ => [9]⟩ 1 2 50 (-10)
        ⟨fun _ _ => 50, fun _ _ => 0, fun _ _ => []⟩).2 ∧
    Event.sendUser 9 (Msg.punishmentAdminNotice 2 0 "p") ∈
      (check_for_punishment ⟨fun _ => [⟨some 0, some "p"⟩], fun _ => [9]⟩ 1 2 50 (-10)
        ⟨fun _ _ => 50, fun _ _ => 0, fun _ _ => []⟩).2 ∧
    "p" ∈ (check_for_punishment ⟨fun _ => [⟨some 0, some "p"⟩], fun _ => [9]⟩ 1 2 50 (-10)
        ⟨fun _ _ => 50, fun _ _ => 0, fun _ _ => []⟩).1.armed 1 2 := by
  have h := C2_punishment_arming ⟨fun _ => [⟨some 0, some "p"⟩], fun _ => [9]⟩ 1 2 50 (-10)
    ⟨fun _ _ => 50, fun _ _ => 0, fun _ _ => []⟩ 0 "p"
    (by simp) (by simp) (by simp)
  exact ⟨h.1.mpr (by norm_num), (h.2.1 9).mpr (by norm_num),
    h.2.2.1 (by norm_num)⟩

theorem familyCheck_iff (R C : List Nat) (f : Nat × Nat → Nat → Nat × Nat)
    (board : List (List Nat)) (p : Nat) :
    familyCheck R C f board p = true ↔
      ∃ line ∈ familyLines R C f, ∀ rc ∈ line, getCell board rc.1 rc.2 = p := by
  unfold familyCheck familyLines
  simp only [List.any_eq_true, List.all_eq_true, beq_iff_eq]
  constructor
  · rintro ⟨r, hr, c, hc, hall⟩
    refine ⟨(List.range 4).map (f (r, c)),
      List.mem_map_of_mem _ (List.pair_mem_product.mpr ⟨hr, hc⟩), ?_⟩
    intro x hx
    obtain ⟨i, hi, rfl⟩ := List.mem_map.mp hx
    exact hall i hi
  · rintro ⟨line, hline, hOwn⟩
    obtain ⟨rc, hrc, rfl⟩ := List.mem_map.mp hline
    obtain ⟨r, c⟩ := rc
    have hp := List.pair_mem_product.mp hrc
    exact ⟨r, hp.1, c, hp.2, fun i hi => hOwn (f (r, c) i) (List.mem_map_of_mem _ hi)⟩

theorem tttFamilyCheck_iff (f : Nat → Nat → Nat × Nat) (board : List (List Nat)) (p : Nat) :
    tttFamilyCheck f board p = true ↔
      ∃ line ∈ tttFamilyLines f, ∀ rc ∈ line, getCell board rc.1 rc.2 = p := by
  unfold tttFamilyCheck tttFamilyLines
  simp only [List.any_eq_true, List.all_eq_true, beq_iff_eq]
  constructor
  · rintro ⟨i, hi, hall⟩
    refine ⟨(List.range 3).map (f i), List.mem_map_of_mem _ hi, ?_⟩
    intro x hx
    obtain ⟨j, hj, rfl⟩ := List.mem_map.mp hx
    exact hall j hj
  · rintro ⟨line, hline, hOwn⟩
    obtain ⟨i, hi, rfl⟩ := List.mem_map.mp hline
    exact ⟨i, hi, fun j hj => hOwn (f i j) (List.mem_map_of_mem _ hj)⟩

theorem lineAllCheck_iff (d : Nat → Nat × Nat) (board : List (List Nat)) (p : Nat) :
    lineAllCheck d board p = true ↔
      ∀ rc ∈ (List.range 3).map d, getCell board rc.1 rc.2 = p := by
  unfold lineAllCheck
  simp only [List.all_eq_true, beq_iff_eq]
  constructor
  · intro hall x hx
    obtain ⟨i, hi, rfl⟩ := List.mem_map.mp hx
    exact hall i hi
  · intro hOwn i hi
    exact hOwn (d i) (List.mem_map_of_mem _ hi)

theorem check_connect_four_win_iff_lines (board : List (List Nat)) (p : Nat) :
    check_connect_four_win board p = true ↔
      ∃ line ∈ connectFourLines, ∀ rc ∈ line, getCell board rc.1 rc.2 = p := by
  show (familyCheck (List.range 6) (List.range 4) (fun rc i => (rc.1, rc.2 + i)) board p ||
      familyCheck (List.range 3) (List.range 7) (fun rc i => (rc.1 + i, rc.2)) board p ||
      familyCheck (List.range 3) (List.range 4) (fun rc i => (rc.1 + i, rc.2 + i)) board p ||
      familyCheck (List.range' 3 3) (List.range 4) (fun rc i => (rc.1 - i, rc.2 + i)) board p)
        = true ↔
    ∃ line ∈ familyLines (List.range 6) (List.range 4) (fun rc i => (rc.1, rc.2 + i)) ++
        familyLines (List.range 3) (List.range 7) (fun rc i => (rc.1 + i, rc.2)) ++
        familyLines (List.range 3) (List.range 4) (fun rc i => (rc.1 + i, rc.2 + i)) ++
        familyLines (List.range' 3 3) (List.range 4) (fun rc i => (rc.1 - i, rc.2 + i)),
      ∀ rc ∈ line, getCell board rc.1 rc.2 = p
  simp only [Bool.or_eq_true, familyCheck_iff, List.mem_append, or_and_right, exists_or,
    or_assoc]

theorem check_tictactoe_win_iff_lines (board : List (List Nat)) (p : Nat) :
    check_tictactoe_win board p = true ↔
      ∃ line ∈ ticTacToeLines, ∀ rc ∈ line, getCell board rc.1 rc.2 = p := by
  show (tttFamilyCheck (fun i j => (i, j)) board p ||
      tttFamilyCheck (fun i j => (j, i)) board p ||
      lineAllCheck (fun i => (i, i)) board p ||
      lineAllCheck (fun i => (i, 2 - i)) board p) = true ↔
    ∃ line ∈ tttFamilyLines (fun i j => (i, j)) ++ tttFamilyLines (fun i j => (j, i)) ++
        [(List.range 3).map fun i => (i, i)] ++ [(List.range 3).map fun i => (i, 2 - i)],
      ∀ rc ∈ line, getCell board rc.1 rc.2 = p
  simp only [Bool.or_eq_true, tttFamilyCheck_iff, lineAllCheck_iff, List.mem_append,
    List.mem_singleton, or_and_right, exists_or, exists_eq_left, or_assoc]

/-- C7: `check_connect_four_win` returns true exactly when the player owns
one of the 69 pairwise-distinct four-in-a-row lines of the 6x7 board
(horizontal, vertical, both diagonals), and `check_tictactoe_win` exactly
when the player owns one of the 8 distinct full lines of the 3x3 board;
hence the win is detected on the move completing a line and on no earlier
board. -/
theorem C7_win_detection_exhaustive :
    (∀ (board : List (List Nat)) (p : Nat),
      check_connect_four_win board p = true ↔
        ∃ line ∈ connectFourLines, ∀ rc ∈ line, getCell board rc.1 rc.2 = p) ∧
    connectFourLines.length = 69 ∧ connectFourLines.Nodup ∧
    (∀ (board : List (List Nat)) (p : Nat),
      check_tictactoe_win board p = true ↔
        ∃ line ∈ ticTacToeLines, ∀ rc ∈ line, getCell board rc.1 rc.2 = p) ∧
    ticTacToeLines.length = 8 ∧ ticTacToeLines.Nodup :=
  ⟨check_connect_four_win_iff_lines, by decide, by decide,
    check_tictactoe_win_iff_lines, by decide, by decide⟩

/-- C1: evaluation at the failing input.  Two games in group 100, both
players staking 10 points, both balances 50.  The connect-four game is one
move from a draw: the drawing move completes the session but deducts
nothing from either balance (the draw branch of the source never calls
`handle_game_draw`).  An equally drawn tic-tac-toe game routes through
`handle_game_draw` and deducts both stakes.  This contradicts the spec
sentence that a draw costs both players their stake for every game type. -/
theorem C1_connect_four_draw_skips_settlement :
    let cfg : Config := ⟨fun _ => [], fun _ => []⟩
    let e : Econ := ⟨fun _ _ => 50, fun _ _ => 0, fun _ _ => []⟩
    let c4game : Game :=
      { group_id := 100, challenger_id := 1, opponent_id := 2,
        status := .active, game_type := some .connect_four,
        challenger_stake := some (.points 10), opponent_stake := some (.points 10),
        board := [[0, 2, 1, 2, 1, 2, 1], [1, 2, 1, 2, 1, 2, 1], [2, 1, 2, 1, 2, 1, 2],
          [2, 1, 2, 1, 2, 1, 2], [1, 2, 1, 2, 1, 2, 1], [1, 2, 1, 2, 1, 2, 1]],
        turn := some 1 }
    let tttgame : Game :=
      { group_id := 100, challenger_id := 1, opponent_id := 2,
        status := .active, game_type := some .tictactoe,
        challenger_stake := some (.points 10), opponent_stake := some (.points 10),
        board := [[1, 2, 2], [2, 1, 1], [1, 0, 2]], turn := some 1 }
    ((findGame (connect_four_move_handler cfg [(7, c4game)] e 7 0 1 999).1 7).map
        Game.status = some GameStatus.complete ∧
      (connect_four_move_handler cfg [(7, c4game)] e 7 0 1 999).2.1.points 100 1 = 50 ∧
      (connect_four_move_handler cfg [(7, c4game)] e 7 0 1 999).2.1.points 100 2 = 50) ∧
    ((findGame (tictactoe_move_handler cfg [(8, tttgame)] e 8 2 1 1 999).1 8).map
        Game.status = some GameStatus.complete ∧
      (tictactoe_move_handler cfg [(8, tttgame)] e 8 2 1 1 999).2.1.points 100 1 = 40 ∧
      (tictactoe_move_handler cfg [(8, tttgame)] e 8 2 1 1 999).2.1.points 100 2 = 40) := by
  decide

/-- C8: while a truth-or-dare session is `awaiting_proof`, a message from
the same user in the same group is valid proof exactly when the content
kind matches the prompt kind (photo/video for a dare, text/voice for a
truth); valid proof awards the fixed 15-point bonus, edits the original
prompt message and deletes the session; non-matching content leaves the
store and the ledger untouched and replies with a hint naming the required
proof kind. -/
theorem C8_tod_proof_validation (cfg : Config) (tods : TodGames) (e : Econ)
    (user : UserId) (group : GroupId) (content : Content) (gid : Nat) (game : TodGame)
    (hfind : findTodGame tods user group = some (gid, game))
    (hbal : 0 ≤ e.points group user) :
    (tod_proof_valid game.tod_type content = true ↔
      (game.tod_type = .dare ∧ (content = .photo ∨ content = .video)) ∨
      (game.tod_type = .truth ∧ ((∃ s, content = .text s) ∨ content = .voice))) ∧
    (tod_proof_valid game.tod_type content = true →
      (tod_handle_proof_submission cfg tods e user group content).2.1.points group user =
        e.points group user + 15 ∧
      (tod_handle_proof_submission cfg tods e user group content).1 = delTodGame tods gid ∧
      Event.sendGroup group (.todCompleted user) ∈
        (tod_handle_proof_submission cfg tods e user group content).2.2 ∧
      Event.editMessage game.chat_id game.message_id .todCompletedEdit ∈
        (tod_handle_proof_submission cfg tods e user group content).2.2) ∧
    (tod_proof_valid game.tod_type content = false →
      (tod_handle_proof_submission cfg tods e user group content).1 = tods ∧
      (tod_handle_proof_submission cfg tods e user group content).2.1 = e ∧
      (tod_handle_proof_submission cfg tods e user group content).2.2 =
        [Event.reply user (.todProofHint (expected_proof game.tod_type))]) := by
  refine ⟨?_, fun hvalid => ?_, fun hinvalid => ?_⟩
  · cases hty : game.tod_type <;> cases content <;> simp [tod_proof_valid]
  · have hpts : (add_user_points cfg group user 15 e).1.points group user =
        e.points group user + 15 := by
      rw [add_user_points_points_self]
      have : ¬(e.points group user + 15 < 0 ∧ e.strikes group user + 1 < 3) := by
        rintro ⟨hc, -⟩
        omega
      simp [this]
    refine ⟨?_, ?_, ?_, ?_⟩ <;>
      simp [tod_handle_proof_submission, hfind, hvalid, hpts]
  · refine ⟨?_, ?_, ?_⟩ <;>
      simp [tod_handle_proof_submission, hfind, hinvalid]

/-- Witness for C8: user 2's dare in group 100.  A text submission is
rejected with a hint naming photo-or-video and leaves the session; a photo
submission earns 15 points (50 to 65) and deletes the session. -/
theorem C8_tod_proof_validation_witness :
    (tod_handle_proof_submission ⟨fun _ => [], fun _ => []⟩
        [(5, ⟨2, 100, .dare, "d", .awaiting_proof, 0, 100, 77, false⟩)]
        ⟨fun _ _ => 50, fun _ _ => 0, fun _ _ => []⟩ 2 100 (.text "done")).1 =
      [(5, ⟨2, 100, .dare, "d", .awaiting_proof, 0, 100, 77, false⟩)] ∧
    (tod_handle_proof_submission ⟨fun _ => [], fun _ => []⟩
        [(5, ⟨2, 100, .dare, "d", .awaiting_proof, 0, 100, 77, false⟩)]
        ⟨fun _ _ => 50, fun _ _ => 0, fun _ _ => []⟩ 2 100 (.text "done")).2.2 =
      [Event.reply 2 (.todProofHint .photoOrVideo)] ∧
    (tod_handle_proof_submission ⟨fun _ => [], fun _ => []⟩
        [(5, ⟨2, 100, .dare, "d", .awaiting_proof, 0, 100, 77, false⟩)]
        ⟨fun _ _ => 50, fun _ _ => 0, fun _ _ => []⟩ 2 100 .photo).2.1.points 100 2 = 65 ∧
    (tod_handle_proof_submission ⟨fun _ => [], fun _ => []⟩
        [(5, ⟨2, 100, .dare, "d", .awaiting_proof, 0, 100, 77, false⟩)]
        ⟨fun _ _ => 50, fun _ _ => 0, fun _ _ => []⟩ 2 100 .photo).1 = [] := by
  have hinv := (C8_tod_proof_validation ⟨fun _ => [], fun _ => []⟩
    [(5, ⟨2, 100, .dare, "d", .awaiting_proof, 0, 100, 77, false⟩)]
    ⟨fun _ _ => 50, fun _ _ => 0, fun _ _ => []⟩ 2 100 (.text "done") 5
    ⟨2, 100, .dare, "d", .awaiting_proof, 0, 100, 77, false⟩ (by simp [findTodGame])
    (by norm_num)).2.2 (by simp [tod_proof_valid])
  have hval := (C8_tod_proof_validation ⟨fun _ => [], fun _ => []⟩
    [(5, ⟨2, 100, .dare, "d", .awaiting_proof, 0, 100, 77, false⟩)]
    ⟨fun _ _ => 50, fun _ _ => 0, fun _ _ => []⟩ 2 100 .photo 5
    ⟨2, 100, .dare, "d", .awaiting_proof, 0, 100, 77, false⟩ (by simp [findTodGame])
    (by norm_num)).2.1 (by simp [tod_proof_valid])
  exact ⟨hinv.1, by simpa [expected_proof] using hinv.2.2, by simpa using hval.1,
    by simpa [delTodGame] using hval.2.1⟩


theorem findGame_eq_none_iff (gs : Games) (gid : Nat) :
    findGame gs gid = none ↔ ∀ p ∈ gs, p.1 ≠ gid := by
  induction gs with
  | nil => simp [findGame]
  | cons hd tl ih =>
    obtain ⟨k, v⟩ := hd
    by_cases hk : k = gid
    · simp [findGame, hk]
    · simp [findGame, hk, ih]

theorem setGame_of_fresh (gs : Games) (gid : Nat) (g : Game)
    (h : findGame gs gid = none) : setGame gs gid g = gs ++ [(gid, g)] := by
  induction gs with
  | nil => rfl
  | cons hd tl ih =>
    obtain ⟨k, v⟩ := hd
    by_cases hk : k = gid
    · rw [findGame_eq_none_iff] at h
      exact absurd hk (h (k, v) (by simp))
    · have htl : findGame tl gid = none := by
        rw [findGame_eq_none_iff] at h ⊢
        exact fun p hp => h p (List.mem_cons_of_mem _ hp)
      simp [setGame, hk, ih htl]

theorem conflict_any_iff (gs : Games) (grp : GroupId) :
    (gs.any fun p => p.2.group_id = grp ∧ p.2.status ≠ GameStatus.complete) = true ↔
      ∃ p ∈ gs, p.2.group_id = grp ∧ p.2.status ≠ GameStatus.complete := by
  simp [List.any_eq_true]

theorem insert_keeps_single_active (gs : Games) (gid : Nat) (g : Game)
    (hfresh : findGame gs gid = none)
    (hinv : ∀ grp, (activeSessions gs grp).length ≤ 1)
    (hempty : ¬∃ p ∈ gs, p.2.group_id = g.group_id ∧ p.2.status ≠ GameStatus.complete) :
    ∀ grp, (activeSessions (setGame gs gid g) grp).length ≤ 1 := by
  intro grp
  rw [setGame_of_fresh gs gid g hfresh]
  rw [show activeSessions (gs ++ [(gid, g)]) grp =
    activeSessions gs grp ++ activeSessions [(gid, g)] grp from
    List.filter_append gs [(gid, g)]]
  by_cases hg : g.group_id = grp
  · have hnil : activeSessions gs grp = [] := by
      rw [activeSessions, List.filter_eq_nil_iff]
      intro p hp hc
      simp only [Bool.and_eq_true, beq_iff_eq, bne_iff_ne] at hc
      exact hempty ⟨p, hp, hg ▸ hc.1, hc.2⟩
    rw [hnil, List.nil_append]
    exact le_trans (List.length_filter_le _ _) (by simp)
  · have hb : activeSessions [(gid, g)] grp = [] := by
      simp [activeSessions, hg]
    rw [hb, List.append_nil]
    exact hinv grp

/-- C9: both session-creating operations preserve the at-most-one
non-complete-session-per-group invariant: when the group already holds a
non-complete session the operation creates nothing and leaves the store
unchanged (reporting the conflict), and in every case the count of
non-complete sessions per group stays at most one.  The hypotheses are the
freshness of the generated uuid key and the invariant holding before the
call. -/
theorem C9_single_active_session (gs : Games) (new_gid : Nat) (group : GroupId)
    (ch op bot : UserId) (old_gid : Nat) (from_user : UserId) (now : Int)
    (hfresh : findGame gs new_gid = none)
    (hinv : ∀ grp, (activeSessions gs grp).length ≤ 1) :
    ((∃ p ∈ gs, p.2.group_id = group ∧ p.2.status ≠ GameStatus.complete) →
      (newgame_command gs new_gid group ch op bot now).1 = gs ∧
      (newgame_command gs new_gid group ch op bot now).2 = false) ∧
    (∀ grp, (activeSessions (newgame_command gs new_gid group ch op bot now).1 grp).length
      ≤ 1) ∧
    (∀ old_game, findGame gs old_gid = some old_game →
      (∃ p ∈ gs, p.2.group_id = old_game.group_id ∧ p.2.status ≠ GameStatus.complete) →
      (revenge_handler gs old_gid from_user new_gid now).1 = gs ∧
      (revenge_handler gs old_gid from_user new_gid now).2 = false) ∧
    (∀ grp, (activeSessions (revenge_handler gs old_gid from_user new_gid now).1 grp).length
      ≤ 1) := by
  refine ⟨fun hex => ?_, ?_, fun old_game hold hex => ?_, ?_⟩
  · have hc := (conflict_any_iff gs group).mpr hex
    by_cases h1 : ch = op
    · simp only [newgame_command]
      rw [if_pos h1]
      exact ⟨rfl, rfl⟩
    · by_cases h2 : op = bot
      · simp only [newgame_command]
        rw [if_neg h1, if_pos h2]
        exact ⟨rfl, rfl⟩
      · simp only [newgame_command]
        rw [if_neg h1, if_neg h2, if_pos hc]
        exact ⟨rfl, rfl⟩
  · intro grp
    by_cases h1 : ch = op
    · simp only [newgame_command]
      rw [if_pos h1]
      exact hinv grp
    · by_cases h2 : op = bot
      · simp only [newgame_command]
        rw [if_neg h1, if_pos h2]
        exact hinv grp
      · by_cases hc : (gs.any fun p =>
            p.2.group_id = group ∧ p.2.status ≠ GameStatus.complete) = true
        · simp only [newgame_command]
          rw [if_neg h1, if_neg h2, if_pos hc]
          exact hinv grp
        · have hempty : ¬∃ p ∈ gs, p.2.group_id = group ∧
              p.2.status ≠ GameStatus.complete :=
            fun hex => hc ((conflict_any_iff gs group).mpr hex)
          simp only [newgame_command]
          rw [if_neg h1, if_neg h2, if_neg hc]
          exact insert_keeps_single_active gs new_gid _ hfresh hinv hempty grp
  · have hc := (conflict_any_iff gs old_game.group_id).mpr hex
    cases hl : old_game.loser_id with
    | none => simp [revenge_handler, hold, hl]
    | some l =>
      cases hw : old_game.winner_id with
      | none => simp [revenge_handler, hold, hl, hw]
      | some w =>
        by_cases hu : from_user = l
        · simp only [revenge_handler, hold, hl, hw]
          rw [if_neg (by simpa using hu), if_pos hc]
          exact ⟨rfl, rfl⟩
        · simp only [revenge_handler, hold, hl, hw]
          rw [if_pos (by simpa using hu)]
          exact ⟨rfl, rfl⟩
  · intro grp
    cases hold : findGame gs old_gid with
    | none =>
      simp only [revenge_handler, hold]
      exact hinv grp
    | some old_game =>
      cases hl : old_game.loser_id with
      | none =>
        simp only [revenge_handler, hold, hl]
        exact hinv grp
      | some l =>
        cases hw : old_game.winner_id with
        | none =>
          simp only [revenge_handler, hold, hl, hw]
          exact hinv grp
        | some w =>
          by_cases hu : from_user = l
          · by_cases hc : (gs.any fun p =>
                p.2.group_id = old_game.group_id ∧
                  p.2.status ≠ GameStatus.complete) = true
            · simp only [revenge_handler, hold, hl, hw]
              rw [if_neg (by simpa using hu), if_pos hc]
              exact hinv grp
            · have hempty : ¬∃ p ∈ gs, p.2.group_id = old_game.group_id ∧
                  p.2.status ≠ GameStatus.complete :=
                fun hex => hc ((conflict_any_iff gs old_game.group_id).mpr hex)
              simp only [revenge_handler, hold, hl, hw]
              rw [if_neg (by simpa using hu), if_neg hc]
              exact insert_keeps_single_active gs new_gid
                { group_id := old_game.group_id, challenger_id := l,
                  opponent_id := w, status := .pending_game_selection,
                  is_revenge := true, old_game_id := some old_gid,
                  last_activity := now }
                hfresh hinv hempty grp
          · simp only [revenge_handler, hold, hl, hw]
            rw [if_pos (by simpa using hu)]
            exact hinv grp

/-- Witness for C9: a group with one active session rejects a second
challenge, leaving the store unchanged and reporting no creation. -/
theorem C9_single_active_session_witness :
    (newgame_command
        [(1, { group_id := 100, challenger_id := 11, opponent_id := 12,
               status := .active : Game })] 2 100 5 6 99 0).1 =
      [(1, { group_id := 100, challenger_id := 11, opponent_id := 12,
             status := .active : Game })] ∧
    (newgame_command
        [(1, { group_id := 100, challenger_id := 11, opponent_id := 12,
               status := .active : Game })] 2 100 5 6 99 0).2 = false := by
  have h := (C9_single_active_session
    [(1, { group_id := 100, challenger_id := 11, opponent_id := 12,
           status := .active : Game })] 2 100 5 6 99 3 7 0
    (by simp [findGame])
    (fun grp => le_trans (List.length_filter_le _ _) (by simp))).1
    ⟨(1, { group_id := 100, challenger_id := 11, opponent_id := 12,
           status := .active : Game }), by simp, rfl, by simp⟩
  exact h

theorem findGame_setGame (gs : Games) (gid : Nat) (g : Game) :
    findGame (setGame gs gid g) gid = some g := by
  induction gs with
  | nil => simp [setGame, findGame]
  | cons hd tl ih =>
    obtain ⟨k, v⟩ := hd
    by_cases hk : k = gid
    · simp [setGame, findGame, hk]
    · simp [setGame, findGame, hk, ih]

/-- C10: in an active dice game, rounds have no designated first mover: a
roll from either player while `last_roll` is empty opens the round and
stores that roll, leaving scores and round number untouched; a second roll
by the round's opener is turned away with scores, round number and the
stored opening roll all unchanged (only the activity timestamp refreshes);
and a tie clears the stored roll so the round restarts with both round
counters and the round number unchanged. -/
theorem C10_dice_rounds (cfg : Config) (gs : Games) (e : Econ) (user : UserId)
    (value : Nat) (now : Int) (gid : Nat) (game : Game)
    (hfind : findDiceGame gs user = some (gid, game))
    (hfg : findGame gs gid = some game) :
    (game.last_roll = none →
      findGame (dice_roll_handler cfg gs e user value now).1 gid =
        some { game with last_roll := some (user, value) } ∧
      (dice_roll_handler cfg gs e user value now).2.1 = e ∧
      (dice_roll_handler cfg gs e user value now).2.2 =
        [Event.sendGroup game.group_id (.diceWaitingFor
          (if game.opponent_id = user then game.challenger_id else game.opponent_id)
          value)]) ∧
    (∀ v1, game.last_roll = some (user, v1) →
      findGame (dice_roll_handler cfg gs e user value now).1 gid =
        some { game with last_activity := now, warning_sent := false } ∧
      (dice_roll_handler cfg gs e user value now).2.1 = e ∧
      (dice_roll_handler cfg gs e user value now).2.2 =
        [Event.sendGroup game.group_id .diceNotYourTurn]) ∧
    (∀ opener, game.last_roll = some (opener, value) → opener ≠ user →
      findGame (dice_roll_handler cfg gs e user value now).1 gid =
        some { game with last_roll := none } ∧
      (dice_roll_handler cfg gs e user value now).2.1 = e ∧
      (dice_roll_handler cfg gs e user value now).2.2 =
        [Event.sendGroup game.group_id (.diceTie value)]) := by
  refine ⟨fun hroll => ?_, fun v1 hroll => ?_, fun opener hroll hne => ?_⟩
  · simp only [dice_roll_handler, hfind, hroll]
    refine ⟨findGame_setGame _ gid _, by simp, by simp⟩
  · simp only [dice_roll_handler, hfind, hroll, if_true]
    refine ⟨?_, by simp, by simp⟩
    simp only [update_game_activity, hfg, hroll]
    exact findGame_setGame _ gid _
  · simp only [dice_roll_handler, hfind, hroll]
    rw [if_neg hne]
    simp only [if_true]
    refine ⟨findGame_setGame _ gid _, by simp, by simp⟩

/-- Witness for C10: in an active dice game (challenger 1, opponent 2) the
opponent may open the round; the opener rolling again is turned away with
the stored roll, scores and round intact; and a tie clears the stored
roll. -/
theorem C10_dice_rounds_witness :
    findGame (dice_roll_handler ⟨fun _ => [], fun _ => []⟩
        [(3, { group_id := 100, challenger_id := 1, opponent_id := 2,
               status := .active, game_type := some .dice : Game })]
        ⟨fun _ _ => 50, fun _ _ => 0, fun _ _ => []⟩ 2 5 50).1 3 =
      some { group_id := 100, challenger_id := 1, opponent_id := 2,
             status := .active, game_type := some .dice,
             last_roll := some (2, 5) : Game } ∧
    findGame (dice_roll_handler ⟨fun _ => [], fun _ => []⟩
        [(3, { group_id := 100, challenger_id := 1, opponent_id := 2,
               status := .active, game_type := some .dice,
               last_roll := some (2, 5) : Game })]
        ⟨fun _ _ => 50, fun _ _ => 0, fun _ _ => []⟩ 2 6 50).1 3 =
      some { group_id := 100, challenger_id := 1, opponent_id := 2,
             status := .active, game_type := some .dice,
             last_roll := some (2, 5), last_activity := 50 : Game } ∧
    findGame (dice_roll_handler ⟨fun _ => [], fun _ => []⟩
        [(3, { group_id := 100, challenger_id := 1, opponent_id := 2,
               status := .active, game_type := some .dice,
               last_roll := some (2, 5) : Game })]
        ⟨fun _ _ => 50, fun _ _ => 0, fun _ _ => []⟩ 1 5 50).1 3 =
      some { group_id := 100, challenger_id := 1, opponent_id := 2,
             status := .active, game_type := some .dice,
             last_roll := none : Game } := by
  have h1 := (C10_dice_rounds ⟨fun _ => [], fun _ => []⟩
    [(3, { group_id := 100, challenger_id := 1, opponent_id := 2,
           status := .active, game_type := some .dice : Game })]
    ⟨fun _ _ => 50, fun _ _ => 0, fun _ _ => []⟩ 2 5 50 3
    { group_id := 100, challenger_id := 1, opponent_id := 2,
      status := .active, game_type := some .dice : Game }
    (by decide) (by decide)).1 rfl
  have h2 := (C10_dice_rounds ⟨fun _ => [], fun _ => []⟩
    [(3, { group_id := 100, challenger_id := 1, opponent_id := 2,
           status := .active, game_type := some .dice,
           last_roll := some (2, 5) : Game })]
    ⟨fun _ _ => 50, fun _ _ => 0, fun _ _ => []⟩ 2 6 50 3
    { group_id := 100, challenger_id := 1, opponent_id := 2,
      status := .active, game_type := some .dice,
      last_roll := some (2, 5) : Game }
    (by decide) (by decide)).2.1 5 rfl
  have h3 := (C10_dice_rounds ⟨fun _ => [], fun _ => []⟩
    [(3, { group_id := 100, challenger_id := 1, opponent_id := 2,
           status := .active, game_type := some .dice,
           last_roll := some (2, 5) : Game })]
    ⟨fun _ _ => 50, fun _ _ => 0, fun _ _ => []⟩ 1 5 50 3
    { group_id := 100, challenger_id := 1, opponent_id := 2,
      status := .active, game_type := some .dice,
      last_roll := some (2, 5) : Game }
    (by decide) (by decide)).2.2 2 rfl (by decide)
  exact ⟨by simpa using h1.1, by simpa using h2.1, by simpa using h3.1⟩

theorem findGame_setGame_of_ne (gs : Games) (k k' : Nat) (g : Game) (h : k' ≠ k) :
    findGame (setGame gs k g) k' = findGame gs k' := by
  induction gs with
  | nil => simp [setGame, findGame, Ne.symm h]
  | cons hd tl ih =>
    obtain ⟨kk, v⟩ := hd
    by_cases hk : kk = k
    · subst hk
      simp [setGame, findGame, h, Ne.symm h]
    · simp [setGame, findGame, hk, ih]

theorem findGame_update_game_activity (gs : Games) (gid : Nat) (now : Int) (game : Game)
    (hfg : findGame gs gid = some game) :
    findGame (update_game_activity gs gid now) gid =
      some { game with last_activity := now, warning_sent := false } := by
  simp only [update_game_activity, hfg]
  exact findGame_setGame _ gid _

theorem findGame_update_game_activity_ne (gs : Games) (gid : Nat) (now : Int)
    (k : Nat) (h : k ≠ gid) :
    findGame (update_game_activity gs gid now) k = findGame gs k := by
  cases hfg : findGame gs gid with
  | none => simp [update_game_activity, hfg]
  | some game =>
    simp only [update_game_activity, hfg]
    exact findGame_setGame_of_ne gs gid k _ h

/-- Counterexample to C4: a revenge challenge in group 100 (original game:
challenger 1 lost to opponent 2; both staked 10 points; balances 50).  The
original winner (user 2) refuses the revenge challenge.  The claim says
settlement forfeits the challenger's stake, i.e. challenger 1's staked
points are deducted - but the code transfers the refuser's original stake
to the challenger: challenger 1 ends at 60 points (a gain) and refuser 2
at 40. -/
theorem C4_revenge_refusal_counterexample :
    (challenge_response_handler ⟨fun _ => [], fun _ => []⟩
        [(1, { group_id := 100, challenger_id := 1, opponent_id := 2,
               status := .complete, game_type := some .dice,
               challenger_stake := some (.points 10),
               opponent_stake := some (.points 10),
               winner_id := some 2, loser_id := some 1 : Game }),
         (4, { group_id := 100, challenger_id := 1, opponent_id := 2,
               status := .pending_opponent_acceptance,
               challenger_stake := some (.points 10),
               is_revenge := true, old_game_id := some 1 : Game })]
        ⟨fun _ _ => 50, fun _ _ => 0, fun _ _ => []⟩ 4 2 false 999).2.1.points 100 1 = 60 ∧
    (challenge_response_handler ⟨fun _ => [], fun _ => []⟩
        [(1, { group_id := 100, challenger_id := 1, opponent_id := 2,
               status := .complete, game_type := some .dice,
               challenger_stake := some (.points 10),
               opponent_stake := some (.points 10),
               winner_id := some 2, loser_id := some 1 : Game }),
         (4, { group_id := 100, challenger_id := 1, opponent_id := 2,
               status := .pending_opponent_acceptance,
               challenger_stake := some (.points 10),
               is_revenge := true, old_game_id := some 1 : Game })]
        ⟨fun _ _ => 50, fun _ _ => 0, fun _ _ => []⟩ 4 2 false 999).2.1.points 100 2 = 40 ∧
    findGame (challenge_response_handler ⟨fun _ => [], fun _ => []⟩
        [(1, { group_id := 100, challenger_id := 1, opponent_id := 2,
               status := .complete, game_type := some .dice,
               challenger_stake := some (.points 10),
               opponent_stake := some (.points 10),
               winner_id := some 2, loser_id := some 1 : Game }),
         (4, { group_id := 100, challenger_id := 1, opponent_id := 2,
               status := .pending_opponent_acceptance,
               challenger_stake := some (.points 10),
               is_revenge := true, old_game_id := some 1 : Game })]
        ⟨fun _ _ => 50, fun _ _ => 0, fun _ _ => []⟩ 4 2 false 999).1 4 = none := by
  decide

/-- C4 (amended): refusal of a plain challenge forfeits the challenger's
stake (points deducted, or media exposed) and deletes the session, which
therefore never reaches `active`; refusal of a revenge challenge instead
forfeits the refuser's - the original winner's - stake from the original
game, transferring its points to the challenger, and deletes the session. -/
theorem C4_refusal_forfeit_amended (cfg : Config) (gs : Games) (e : Econ)
    (gid : Nat) (user : UserId) (now : Int) (game : Game)
    (hfg : findGame gs gid = some game)
    (hop : user = game.opponent_id) :
    (game.is_revenge = false → ∀ v, game.challenger_stake = some (.points v) →
      0 ≤ e.points game.group_id game.challenger_id - v →
      (challenge_response_handler cfg gs e gid user false now).1 =
        delGame (update_game_activity gs gid now) gid ∧
      (challenge_response_handler cfg gs e gid user false now).2.1.points
          game.group_id game.challenger_id =
        e.points game.group_id game.challenger_id - v ∧
      Event.sendGroup game.group_id (.refusalForfeitPoints game.challenger_id v) ∈
        (challenge_response_handler cfg gs e gid user false now).2.2) ∧
    (game.is_revenge = false → ∀ f, game.challenger_stake = some (.photo f) →
      (challenge_response_handler cfg gs e gid user false now).1 =
        delGame (update_game_activity gs gid now) gid ∧
      (challenge_response_handler cfg gs e gid user false now).2.1 = e ∧
      Event.exposePhoto game.group_id f ∈
        (challenge_response_handler cfg gs e gid user false now).2.2) ∧
    (game.is_revenge = true → ∀ ogid old_game w l v,
      game.old_game_id = some ogid → ogid ≠ gid →
      findGame gs ogid = some old_game →
      old_game.winner_id = some w → old_game.loser_id = some l →
      (if old_game.challenger_id = w then old_game.challenger_stake
        else old_game.opponent_stake) = some (.points v) →
      w ≠ l →
      (challenge_response_handler cfg gs e gid user false now).1 =
        delGame (update_game_activity gs gid now) gid ∧
      (0 ≤ e.points game.group_id l + v →
        (challenge_response_handler cfg gs e gid user false now).2.1.points
          game.group_id l = e.points game.group_id l + v) ∧
      (0 ≤ e.points game.group_id l + v → 0 ≤ e.points game.group_id w - v →
        (challenge_response_handler cfg gs e gid user false now).2.1.points
          game.group_id w = e.points game.group_id w - v) ∧
      Event.sendGroup game.group_id (.revengeRefusalForfeit w l v) ∈
        (challenge_response_handler cfg gs e gid user false now).2.2) := by
  subst hop
  have hF := findGame_update_game_activity gs gid now game hfg
  refine ⟨fun hrev v hst hbal => ?_, fun hrev f hst => ?_,
    fun hrev ogid old_game w l v hog hne hfgo hw hl hst hwl => ?_⟩
  · simp only [challenge_response_handler, hF, hrev, hst]
    simp only [ne_eq, not_true_eq_false, if_false, Bool.false_eq_true, if_true]
    refine ⟨by simp, ?_, by simp⟩
    rw [add_user_points_points_self]
    have hc : ¬(e.points game.group_id game.challenger_id + -v < 0 ∧
        e.strikes game.group_id game.challenger_id + 1 < 3) := by
      rintro ⟨h1, -⟩
      omega
    rw [if_neg hc]
    omega
  · simp only [challenge_response_handler, hF, hrev, hst]
    simp only [ne_eq, not_true_eq_false, if_false, Bool.false_eq_true, if_true]
    exact ⟨by simp, by simp, by simp [exposeStake]⟩
  · have hFo : findGame (update_game_activity gs gid now) ogid = some old_game := by
      rw [findGame_update_game_activity_ne gs gid now ogid hne]
      exact hfgo
    simp only [challenge_response_handler, hF, hrev, hog, Option.some_bind, hFo, hw, hl, hst]
    simp only [ne_eq, not_true_eq_false, if_false, Bool.false_eq_true, if_true]
    have hother : ¬(game.group_id = game.group_id ∧ w = l) := by
      rintro ⟨-, hc⟩
      exact hwl hc
    refine ⟨by simp, fun hb1 => ?_, fun hb1 hb2 => ?_, by simp⟩
    · rw [add_user_points_points_other _ _ _ _ _ _ _ (by
        rintro ⟨-, hc⟩
        exact hwl hc.symm)]
      rw [add_user_points_points_self]
      have hc : ¬(e.points game.group_id l + v < 0 ∧
          e.strikes game.group_id l + 1 < 3) := by
        rintro ⟨h1, -⟩
        omega
      rw [if_neg hc]
    · rw [add_user_points_points_self]
      rw [add_user_points_points_other _ _ _ _ _ _ _ (by
        rintro ⟨-, hc⟩
        exact hwl hc)]
      rw [add_user_points_strikes_other _ _ _ _ _ _ _ (by
        rintro ⟨-, hc⟩
        exact hwl hc)]
      have hc : ¬(e.points game.group_id w + -v < 0 ∧
          e.strikes game.group_id w + 1 < 3) := by
        rintro ⟨h1, -⟩
        omega
      rw [if_neg hc]
      omega

/-- Witness for the amended C4: refusing a plain challenge costs challenger
1 their 10-point stake (50 to 40) and removes the session; refusing a
revenge challenge transfers the original winner's 10-point stake to the
challenger (50 to 60). -/
theorem C4_refusal_forfeit_amended_witness :
    (challenge_response_handler ⟨fun _ => [], fun _ => []⟩
        [(9, { group_id := 100, challenger_id := 1, opponent_id := 2,
               status := .pending_opponent_acceptance,
               challenger_stake := some (.points 10) : Game })]
        ⟨fun _ _ => 50, fun _ _ => 0, fun _ _ => []⟩ 9 2 false 999).2.1.points 100 1 = 40 ∧
    findGame (challenge_response_handler ⟨fun _ => [], fun _ => []⟩
        [(9, { group_id := 100, challenger_id := 1, opponent_id := 2,
               status := .pending_opponent_acceptance,
               challenger_stake := some (.points 10) : Game })]
        ⟨fun _ _ => 50, fun _ _ => 0, fun _ _ => []⟩ 9 2 false 999).1 9 = none ∧
    (challenge_response_handler ⟨fun _ => [], fun _ => []⟩
        [(1, { group_id := 100, challenger_id := 1, opponent_id := 2,
               status := .complete, game_type := some .dice,
               challenger_stake := some (.points 10),
               opponent_stake := some (.points 10),
               winner_id := some 2, loser_id := some 1 : Game }),
         (4, { group_id := 100, challenger_id := 1, opponent_id := 2,
               status := .pending_opponent_acceptance,
               challenger_stake := some (.points 10),
               is_revenge := true, old_game_id := some 1 : Game })]
        ⟨fun _ _ => 50, fun _ _ => 0, fun _ _ => []⟩ 4 2 false 999).2.1.points 100 1 = 60 := by
  have h1 := (C4_refusal_forfeit_amended ⟨fun _ => [], fun _ => []⟩
    [(9, { group_id := 100, challenger_id := 1, opponent_id := 2,
           status := .pending_opponent_acceptance,
           challenger_stake := some (.points 10) : Game })]
    ⟨fun _ _ => 50, fun _ _ => 0, fun _ _ => []⟩ 9 2 999
    { group_id := 100, challenger_id := 1, opponent_id := 2,
      status := .pending_opponent_acceptance,
      challenger_stake := some (.points 10) : Game }
    (by decide) rfl).1 rfl 10 rfl (by norm_num)
  have h2 := ((C4_refusal_forfeit_amended ⟨fun _ => [], fun _ => []⟩
    [(1, { group_id := 100, challenger_id := 1, opponent_id := 2,
           status := .complete, game_type := some .dice,
           challenger_stake := some (.points 10),
           opponent_stake := some (.points 10),
           winner_id := some 2, loser_id := some 1 : Game }),
     (4, { group_id := 100, challenger_id := 1, opponent_id := 2,
           status := .pending_opponent_acceptance,
           challenger_stake := some (.points 10),
           is_revenge := true, old_game_id := some 1 : Game })]
    ⟨fun _ _ => 50, fun _ _ => 0, fun _ _ => []⟩ 4 2 999
    { group_id := 100, challenger_id := 1, opponent_id := 2,
      status := .pending_opponent_acceptance,
      challenger_stake := some (.points 10),
      is_revenge := true, old_game_id := some 1 : Game }
    (by decide) rfl).2.2 rfl 1
    { group_id := 100, challenger_id := 1, opponent_id := 2,
      status := .complete, game_type := some .dice,
      challenger_stake := some (.points 10),
      opponent_stake := some (.points 10),
      winner_id := some 2, loser_id := some 1 : Game }
    2 1 10 rfl (by decide) (by decide) rfl rfl (by decide) (by decide)).2.1
    (by norm_num)
  refine ⟨by simpa using h1.2.1, ?_, by simpa using h2⟩
  rw [h1.1]
  decide

/-- Counterexample to C6: an active connect-four game (turn: challenger 1,
stored `last_activity` 0).  Opponent 2's out-of-turn press at time 999 is
rejected, yet the stored session is not byte-for-byte unchanged: its
`last_activity` is refreshed to 999 (and the warning flag cleared) by
`update_game_activity`, which runs before any validation.  Also, pressing
a button of a completed session is reported by editing the shared board
message, not by an actor-only alert. -/
theorem C6_rejection_counterexample :
    (findGame (connect_four_move_handler ⟨fun _ => [], fun _ => []⟩
        [(7, { group_id := 100, challenger_id := 1, opponent_id := 2,
               status := .active, game_type := some .connect_four,
               board := [[0, 0, 0, 0, 0, 0, 0], [0, 0, 0, 0, 0, 0, 0],
                 [0, 0, 0, 0, 0, 0, 0], [0, 0, 0, 0, 0, 0, 0],
                 [0, 0, 0, 0, 0, 0, 0], [0, 0, 0, 0, 0, 0, 0]],
               turn := some 1, last_activity := 0 : Game })]
        ⟨fun _ _ => 50, fun _ _ => 0, fun _ _ => []⟩ 7 0 2 999).1 7).map
      Game.last_activity = some 999 ∧
    (connect_four_move_handler ⟨fun _ => [], fun _ => []⟩
        [(7, { group_id := 100, challenger_id := 1, opponent_id := 2,
               status := .active, game_type := some .connect_four,
               board := [[0, 0, 0, 0, 0, 0, 0], [0, 0, 0, 0, 0, 0, 0],
                 [0, 0, 0, 0, 0, 0, 0], [0, 0, 0, 0, 0, 0, 0],
                 [0, 0, 0, 0, 0, 0, 0], [0, 0, 0, 0, 0, 0, 0]],
               turn := some 1, last_activity := 0 : Game })]
        ⟨fun _ _ => 50, fun _ _ => 0, fun _ _ => []⟩ 7 0 2 999).2.2 =
      [Event.alert 2 .notYourTurn] ∧
    (connect_four_move_handler ⟨fun _ => [], fun _ => []⟩
        [(7, { group_id := 100, challenger_id := 1, opponent_id := 2,
               status := .complete, game_type := some .connect_four,
               turn := some 1, last_activity := 0 : Game })]
        ⟨fun _ _ => 50, fun _ _ => 0, fun _ _ => []⟩ 7 0 2 999).2.2 =
      [Event.editShared .noLongerActive] := by
  decide

/-- C6 (amended): a move on a session that is not active, or out of turn,
is rejected with no ledger delta and no change to the board, turn, status,
stakes or scores - but the handlers first refresh the session's
`last_activity` and clear its warning flag, and the not-active rejection
edits the shared board message while the wrong-turn rejection is an
actor-only alert. -/
theorem C6_rejected_move_frame_amended (cfg : Config) (gs : Games) (e : Econ)
    (gid : Nat) (user : UserId) (now : Int) (game : Game) (col r c : Nat)
    (hfg : findGame gs gid = some game) :
    (game.status ≠ .active →
      connect_four_move_handler cfg gs e gid col user now =
        (update_game_activity gs gid now, e, [Event.editShared .noLongerActive]) ∧
      tictactoe_move_handler cfg gs e gid r c user now =
        (update_game_activity gs gid now, e, [Event.editShared .noLongerActive])) ∧
    (game.status = .active → game.turn ≠ some user →
      connect_four_move_handler cfg gs e gid col user now =
        (update_game_activity gs gid now, e, [Event.alert user .notYourTurn]) ∧
      tictactoe_move_handler cfg gs e gid r c user now =
        (update_game_activity gs gid now, e, [Event.alert user .notYourTurn])) ∧
    findGame (update_game_activity gs gid now) gid =
      some { game with last_activity := now, warning_sent := false } := by
  have hF := findGame_update_game_activity gs gid now game hfg
  refine ⟨fun hst => ?_, fun hst hturn => ?_, hF⟩
  · constructor
    · simp only [connect_four_move_handler, hF]
      rw [if_pos (by simpa using hst)]
    · simp only [tictactoe_move_handler, hF]
      rw [if_pos (by simpa using hst)]
  · constructor
    · simp only [connect_four_move_handler, hF]
      rw [if_neg (by simpa using hst), if_pos (by simpa using hturn)]
    · simp only [tictactoe_move_handler, hF]
      rw [if_neg (by simpa using hst), if_pos (by simpa using hturn)]

/-- Witness for the amended C6: opponent 2's out-of-turn press on the
active connect-four game of the counterexample produces exactly the
actor-only alert, leaves the ledger at 50, and stores the session with
only the activity timestamp refreshed. -/
theorem C6_rejected_move_frame_amended_witness :
    connect_four_move_handler ⟨fun _ => [], fun _ => []⟩
        [(7, { group_id := 100, challenger_id := 1, opponent_id := 2,
               status := .active, game_type := some .connect_four,
               turn := some 1, last_activity := 0 : Game })]
        ⟨fun _ _ => 50, fun _ _ => 0, fun _ _ => []⟩ 7 0 2 999 =
      (update_game_activity
        [(7, { group_id := 100, challenger_id := 1, opponent_id := 2,
               status := .active, game_type := some .connect_four,
               turn := some 1, last_activity := 0 : Game })] 7 999,
       ⟨fun _ _ => 50, fun _ _ => 0, fun _ _ => []⟩,
       [Event.alert 2 .notYourTurn]) ∧
    findGame (update_game_activity
        [(7, { group_id := 100, challenger_id := 1, opponent_id := 2,
               status := .active, game_type := some .connect_four,
               turn := some 1, last_activity := 0 : Game })] 7 999) 7 =
      some { group_id := 100, challenger_id := 1, opponent_id := 2,
             status := .active, game_type := some .connect_four,
             turn := some 1, last_activity := 999 : Game } := by
  have h := C6_rejected_move_frame_amended ⟨fun _ => [], fun _ => []⟩
    [(7, { group_id := 100, challenger_id := 1, opponent_id := 2,
           status := .active, game_type := some .connect_four,
           turn := some 1, last_activity := 0 : Game })]
    ⟨fun _ _ => 50, fun _ _ => 0, fun _ _ => []⟩ 7 2 999
    { group_id := 100, challenger_id := 1, opponent_id := 2,
      status := .active, game_type := some .connect_four,
      turn := some 1, last_activity := 0 : Game } 0 0 0 (by decide)
  exact ⟨(h.2.1 rfl (by decide)).1, by simpa using h.2.2⟩

/-- Counterexample to C5: a session still in `pending_game_selection` - so
never accepted by the opponent - with a staged 10-point challenger stake
and `last_activity` 0 is swept at time 1000.  The long-window branch of
`check_game_inactivity` routes it through `handle_game_cancellation`,
which deducts the staged stake (balance 50 to 40), contradicting the
claim's "any timeout cancellation of a session that was never accepted
forfeits nothing". -/
theorem C5_never_accepted_forfeit_counterexample :
    (check_inactivity_step ⟨fun _ => [], fun _ => []⟩ 1000
        [(7, { group_id := 100, challenger_id := 1, opponent_id := 2,
               status := .pending_game_selection,
               challenger_stake := some (.points 10),
               last_activity := 0 : Game })]
        ⟨fun _ _ => 50, fun _ _ => 0, fun _ _ => []⟩ 7).2.1.points 100 1 = 40 ∧
    (findGame (check_inactivity_step ⟨fun _ => [], fun _ => []⟩ 1000
        [(7, { group_id := 100, challenger_id := 1, opponent_id := 2,
               status := .pending_game_selection,
               challenger_stake := some (.points 10),
               last_activity := 0 : Game })]
        ⟨fun _ _ => 50, fun _ _ => 0, fun _ _ => []⟩ 7).1 7).map Game.status =
      some GameStatus.complete := by
  decide

/-- C5 (amended): per scheduler tick and session: a session pending
opponent acceptance and idle beyond 120 s is cancelled with no stake
forfeiture; any other non-complete session idle beyond 420 s is cancelled
with both staged stakes forfeited - including a never-accepted session
still in `pending_game_selection`, whose staged stake is forfeited,
contrary to the original claim's last clause; a session idle beyond 300 s
with no warning sent gets exactly one warning and the mark set, a marked
session gets none, and any activity clears the mark. -/
theorem C5_inactivity_sweep_amended (cfg : Config) (gs : Games) (e : Econ)
    (gid : Nat) (now : Int) (game : Game)
    (hfg : findGame gs gid = some game) :
    (game.status = .pending_opponent_acceptance → now - game.last_activity > 120 →
      check_inactivity_step cfg now gs e gid =
        (setGame gs gid { game with status := .complete }, e,
          [Event.sendGroup game.group_id .challengeExpired])) ∧
    ((game.status = .pending_game_selection ∨ game.status = .pending_opponent_stake ∨
        game.status = .active) →
      now - game.last_activity > 420 →
      findGame (check_inactivity_step cfg now gs e gid).1 gid =
        some { game with status := .complete } ∧
      Event.sendGroup game.group_id .cancelledForInactivity ∈
        (check_inactivity_step cfg now gs e gid).2.2 ∧
      (∀ v w, game.challenger_stake = some (.points v) →
        game.opponent_stake = some (.points w) →
        game.challenger_id ≠ game.opponent_id →
        0 ≤ e.points game.group_id game.challenger_id - v →
        0 ≤ e.points game.group_id game.opponent_id - w →
        (check_inactivity_step cfg now gs e gid).2.1.points game.group_id
            game.challenger_id =
          e.points game.group_id game.challenger_id - v ∧
        (check_inactivity_step cfg now gs e gid).2.1.points game.group_id
            game.opponent_id =
          e.points game.group_id game.opponent_id - w)) ∧
    ((game.status = .pending_game_selection ∨ game.status = .pending_opponent_stake ∨
        game.status = .active) →
      ¬now - game.last_activity > 420 → now - game.last_activity > 300 →
      game.warning_sent = false →
      check_inactivity_step cfg now gs e gid =
        (setGame gs gid { game with warning_sent := true }, e,
          [Event.sendGroup game.group_id .inactivityWarning])) ∧
    ((game.status = .pending_game_selection ∨ game.status = .pending_opponent_stake ∨
        game.status = .active) →
      ¬now - game.last_activity > 420 →
      game.warning_sent = true →
      check_inactivity_step cfg now gs e gid = (gs, e, [])) ∧
    findGame (update_game_activity gs gid now) gid =
      some { game with last_activity := now, warning_sent := false } := by
  refine ⟨fun hst h120 => ?_, fun hst h420 => ?_, fun hst h420 h300 hw => ?_,
    fun hst h420 hw => ?_, findGame_update_game_activity gs gid now game hfg⟩
  · simp only [check_inactivity_step, hfg, handle_challenge_timeout]
    rw [if_neg (by simp [hst]), if_pos (by simp [hst, h120])]
    rw [if_neg (by simp [hst])]
  · have hnacc : ¬(game.status = GameStatus.pending_opponent_acceptance ∧
        now - game.last_activity > 120) := by
      rintro ⟨hc, -⟩
      rcases hst with h | h | h <;> simp [h] at hc
    have hred : check_inactivity_step cfg now gs e gid =
        handle_game_cancellation cfg gs e gid := by
      simp only [check_inactivity_step, hfg]
      rw [if_neg (by rcases hst with h | h | h <;> simp [h]), if_neg hnacc,
        if_pos h420]
    have hncomp : game.status ≠ GameStatus.complete := by
      rcases hst with h | h | h <;> simp [h]
    rw [hred]
    simp only [handle_game_cancellation, hfg]
    rw [if_neg hncomp]
    refine ⟨findGame_setGame _ gid _, by simp, fun v w hcs hos hne hb1 hb2 => ?_⟩
    simp only [hcs, hos]
    constructor
    · rw [add_user_points_points_other _ _ _ _ _ _ _ (by
        rintro ⟨-, hc⟩
        exact hne hc)]
      rw [add_user_points_points_self]
      have hc : ¬(e.points game.group_id game.challenger_id + -v < 0 ∧
          e.strikes game.group_id game.challenger_id + 1 < 3) := by
        rintro ⟨h1, -⟩
        omega
      rw [if_neg hc]
      omega
    · rw [add_user_points_points_self]
      rw [add_user_points_points_other _ _ _ _ _ _ _ (by
        rintro ⟨-, hc⟩
        exact hne hc.symm)]
      rw [add_user_points_strikes_other _ _ _ _ _ _ _ (by
        rintro ⟨-, hc⟩
        exact hne hc.symm)]
      have hc : ¬(e.points game.group_id game.opponent_id + -w < 0 ∧
          e.strikes game.group_id game.opponent_id + 1 < 3) := by
        rintro ⟨h1, -⟩
        omega
      rw [if_neg hc]
      omega
  · simp only [check_inactivity_step, hfg]
    rw [if_neg (by rcases hst with h | h | h <;> simp [h]),
      if_neg (by
        rintro ⟨hc, -⟩
        rcases hst with h | h | h <;> simp [h] at hc),
      if_neg h420, if_pos (by simp [h300, hw])]
  · simp only [check_inactivity_step, hfg]
    rw [if_neg (by rcases hst with h | h | h <;> simp [h]),
      if_neg (by
        rintro ⟨hc, -⟩
        rcases hst with h | h | h <;> simp [h] at hc),
      if_neg h420, if_neg (by
        rintro ⟨-, hc⟩
        simp [hw] at hc)]

/-- Witness for the amended C5: an unaccepted challenge idle 200 s is
cancelled with the challenger's balance untouched; an active game idle
1000 s forfeits both 10-point stakes (50 to 40 each); an active game idle
350 s with no warning sent gets exactly the warning message. -/
theorem C5_inactivity_sweep_amended_witness :
    (check_inactivity_step ⟨fun _ => [], fun _ => []⟩ 200
        [(7, { group_id := 100, challenger_id := 1, opponent_id := 2,
               status := .pending_opponent_acceptance,
               challenger_stake := some (.points 10),
               last_activity := 0 : Game })]
        ⟨fun _ _ => 50, fun _ _ => 0, fun _ _ => []⟩ 7).2.1.points 100 1 = 50 ∧
    (check_inactivity_step ⟨fun _ => [], fun _ => []⟩ 1000
        [(8, { group_id := 100, challenger_id := 1, opponent_id := 2,
               status := .active, challenger_stake := some (.points 10),
               opponent_stake := some (.points 10),
               last_activity := 0 : Game })]
        ⟨fun _ _ => 50, fun _ _ => 0, fun _ _ => []⟩ 8).2.1.points 100 1 = 40 ∧
    (check_inactivity_step ⟨fun _ => [], fun _ => []⟩ 1000
        [(8, { group_id := 100, challenger_id := 1, opponent_id := 2,
               status := .active, challenger_stake := some (.points 10),
               opponent_stake := some (.points 10),
               last_activity := 0 : Game })]
        ⟨fun _ _ => 50, fun _ _ => 0, fun _ _ => []⟩ 8).2.1.points 100 2 = 40 ∧
    (check_inactivity_step ⟨fun _ => [], fun _ => []⟩ 350
        [(9, { group_id := 100, challenger_id := 1, opponent_id := 2,
               status := .active, last_activity := 0 : Game })]
        ⟨fun _ _ => 50, fun _ _ => 0, fun _ _ => []⟩ 9).2.2 =
      [Event.sendGroup 100 .inactivityWarning] := by
  have h1 := (C5_inactivity_sweep_amended ⟨fun _ => [], fun _ => []⟩
    [(7, { group_id := 100, challenger_id := 1, opponent_id := 2,
           status := .pending_opponent_acceptance,
           challenger_stake := some (.points 10),
           last_activity := 0 : Game })]
    ⟨fun _ _ => 50, fun _ _ => 0, fun _ _ => []⟩ 7 200
    { group_id := 100, challenger_id := 1, opponent_id := 2,
      status := .pending_opponent_acceptance,
      challenger_stake := some (.points 10),
      last_activity := 0 : Game } (by decide)).1 rfl (by norm_num)
  have h2 := ((C5_inactivity_sweep_amended ⟨fun _ => [], fun _ => []⟩
    [(8, { group_id := 100, challenger_id := 1, opponent_id := 2,
           status := .active, challenger_stake := some (.points 10),
           opponent_stake := some (.points 10),
           last_activity := 0 : Game })]
    ⟨fun _ _ => 50, fun _ _ => 0, fun _ _ => []⟩ 8 1000
    { group_id := 100, challenger_id := 1, opponent_id := 2,
      status := .active, challenger_stake := some (.points 10),
      opponent_stake := some (.points 10),
      last_activity := 0 : Game } (by decide)).2.1 (Or.inr (Or.inr rfl))
    (by norm_num)).2.2 10 10 rfl rfl (by decide) (by norm_num) (by norm_num)
  have h3 := (C5_inactivity_sweep_amended ⟨fun _ => [], fun _ => []⟩
    [(9, { group_id := 100, challenger_id := 1, opponent_id := 2,
           status := .active, last_activity := 0 : Game })]
    ⟨fun _ _ => 50, fun _ _ => 0, fun _ _ => []⟩ 9 350
    { group_id := 100, challenger_id := 1, opponent_id := 2,
      status := .active, last_activity := 0 : Game } (by decide)).2.2.1
    (Or.inr (Or.inr rfl)) (by norm_num) (by norm_num) rfl
  refine ⟨?_, by simpa using h2.1, by simpa using h2.2, ?_⟩
  · rw [h1]
  · rw [h3]
